import Mathlib

/-!
Verification of the pagination, repository and handler logic of a Go CMS
backend.  Go code is shallowly embedded: Go `int`/`int64` become `Int` with
Go's truncated division (`Int.tdiv` / `Int.tmod`), pointer-typed optional
request fields become `Option`, SQL tables become lists of row structures,
a transaction is a function on the database state whose failure discards
the candidate state (rollback), and `uuid.New()` / `time.Now()` /
`CURRENT_TIMESTAMP` become explicit `newId` / `now` parameters.
-/

namespace CMS

/-! ## Pagination primitive (internal/models pagination file) -/

/-- Embeds Go struct `PaginationParams`. -/
structure PaginationParams where
  page : Int
  pageSize : Int
  sortBy : String
  sortDir : String
  deriving Repr, DecidableEq

/-- Embeds Go `DefaultPagination`. -/
def DefaultPagination : PaginationParams :=
  { page := 1, pageSize := 20, sortBy := "created_at", sortDir := "desc" }

/-- Embeds Go method `(p *PaginationParams) Offset()`: `(p.Page - 1) * p.PageSize`. -/
def PaginationParams.Offset (p : PaginationParams) : Int :=
  (p.page - 1) * p.pageSize

/-- Embeds Go method `(p *PaginationParams) Limit()`. -/
def PaginationParams.Limit (p : PaginationParams) : Int :=
  p.pageSize

/-- Embeds Go method `(p *PaginationParams) Normalize()`; the Go method mutates
the receiver, here the normalized value is returned. -/
def PaginationParams.Normalize (p : PaginationParams) : PaginationParams :=
  let p := if p.page < 1 then { p with page := 1 } else p
  let p := if p.pageSize < 1 then { p with pageSize := 20 } else p
  let p := if p.pageSize > 100 then { p with pageSize := 100 } else p
  let p := if p.sortDir ≠ "asc" ∧ p.sortDir ≠ "desc" then { p with sortDir := "desc" } else p
  p

/-- Embeds Go generic struct `PaginatedResult[T]`. -/
structure PaginatedResult (T : Type) where
  data : List T
  total : Int
  page : Int
  pageSize : Int
  totalPages : Int
  deriving Repr, DecidableEq

/-- Embeds Go `NewPaginatedResult`: `totalPages := int(total) / params.PageSize`
followed by `totalPages++` when `int(total) % params.PageSize > 0`; Go `/` and
`%` are truncated division, hence `Int.tdiv` / `Int.tmod`. -/
def NewPaginatedResult {T : Type} (data : List T) (total : Int)
    (params : PaginationParams) : PaginatedResult T :=
  let q := Int.tdiv total params.pageSize
  let totalPages := if Int.tmod total params.pageSize > 0 then q + 1 else q
  { data := data, total := total, page := params.page,
    pageSize := params.pageSize, totalPages := totalPages }

/-- Embeds the inline response-metadata formula `int(total)/filter.PageSize + 1`
used by `TagHandler.List` and `ContentPostHandler.List` when building
`response.Meta.TotalPages`. -/
def listMetaTotalPages (total pageSize : Int) : Int :=
  Int.tdiv total pageSize + 1

/-- Embeds Go `parsePaginationParams` input: each query parameter is either
absent / unparseable (`none`) or parsed (`some`). -/
structure RawQuery where
  page : Option Int
  pageSize : Option Int
  sortBy : Option String
  sortDir : Option String

/-- Embeds Go `parsePaginationParams`: start from the defaults, overwrite each
field whose query parameter is present and parses, then `Normalize`. -/
def parsePaginationParams (q : RawQuery) : PaginationParams :=
  let p := DefaultPagination
  let p := match q.page with | some v => { p with page := v } | none => p
  let p := match q.pageSize with | some v => { p with pageSize := v } | none => p
  let p := match q.sortBy with | some v => { p with sortBy := v } | none => p
  let p := match q.sortDir with | some v => { p with sortDir := v } | none => p
  p.Normalize

/-! ### Helper lemmas about the totalPages arithmetic -/

/-- The ceil-style helper value, bounded between its enclosing multiples of
`pageSize`; this is the defining property of the ceiling of the division. -/
lemma newPaginatedResult_totalPages_bounds {T : Type} (data : List T)
    (total : Int) (params : PaginationParams) (htotal : 0 ≤ total)
    (h1 : 1 ≤ params.pageSize) :
    ((NewPaginatedResult data total params).totalPages - 1) * params.pageSize < total ∧
      total ≤ (NewPaginatedResult data total params).totalPages * params.pageSize := by
  have hps : (0 : ℤ) < params.pageSize := by linarith
  have hsum : Int.tdiv total params.pageSize * params.pageSize
      + Int.tmod total params.pageSize = total :=
    Int.tdiv_add_tmod' total params.pageSize
  have hr0 : 0 ≤ Int.tmod total params.pageSize := Int.tmod_nonneg _ htotal
  have hrlt : Int.tmod total params.pageSize < params.pageSize :=
    Int.tmod_lt_of_pos total hps
  have htp : (NewPaginatedResult data total params).totalPages =
      if Int.tmod total params.pageSize > 0
      then Int.tdiv total params.pageSize + 1
      else Int.tdiv total params.pageSize := rfl
  constructor
  · rw [htp]
    by_cases h : Int.tmod total params.pageSize > 0 <;> simp only [h, if_true, if_false, reduceIte] <;> nlinarith
  · rw [htp]
    by_cases h : Int.tmod total params.pageSize > 0 <;> simp only [h, if_true, if_false, reduceIte] <;> nlinarith

/-- The page field after `Normalize`. -/
lemma normalize_page (p : PaginationParams) :
    p.Normalize.page = if p.page < 1 then 1 else p.page := by
  simp only [PaginationParams.Normalize]
  split_ifs <;> simp_all

/-- The pageSize field after `Normalize`. -/
lemma normalize_pageSize (p : PaginationParams) :
    p.Normalize.pageSize =
      if p.pageSize < 1 then 20 else if p.pageSize > 100 then 100 else p.pageSize := by
  simp only [PaginationParams.Normalize]
  split_ifs <;> simp_all

/-- The sortDir field after `Normalize`. -/
lemma normalize_sortDir (p : PaginationParams) :
    p.Normalize.sortDir =
      if p.sortDir ≠ "asc" ∧ p.sortDir ≠ "desc" then "desc" else p.sortDir := by
  simp only [PaginationParams.Normalize]
  split_ifs <;> simp_all

/-- The sortBy field after `Normalize`. -/
lemma normalize_sortBy (p : PaginationParams) : p.Normalize.sortBy = p.sortBy := by
  simp only [PaginationParams.Normalize]
  split_ifs <;> simp_all

/-- Shared characterization of `Normalize`, used by claim C3. -/
lemma normalize_spec (p : PaginationParams) :
    1 ≤ p.Normalize.page ∧
    1 ≤ p.Normalize.pageSize ∧ p.Normalize.pageSize ≤ 100 ∧
    (p.Normalize.sortDir = "asc" ∨ p.Normalize.sortDir = "desc") ∧
    (p.page < 1 → p.Normalize.page = 1) ∧
    (1 ≤ p.page → p.Normalize.page = p.page) ∧
    (p.pageSize < 1 → p.Normalize.pageSize = 20) ∧
    (p.pageSize > 100 → p.Normalize.pageSize = 100) ∧
    (p.sortDir ≠ "asc" ∧ p.sortDir ≠ "desc" → p.Normalize.sortDir = "desc") ∧
    ((p.sortDir = "asc" ∨ p.sortDir = "desc") → p.Normalize.sortDir = p.sortDir) ∧
    p.Normalize.Offset = (p.Normalize.page - 1) * p.Normalize.pageSize ∧
    p.Normalize.sortBy = p.sortBy := by
  have hp := normalize_page p
  have hs := normalize_pageSize p
  have hd := normalize_sortDir p
  refine ⟨?_, ?_, ?_, ?_, ?_, ?_, ?_, ?_, ?_, ?_, rfl, normalize_sortBy p⟩
  · rw [hp]; split_ifs <;> omega
  · rw [hs]; split_ifs <;> omega
  · rw [hs]; split_ifs <;> omega
  · rw [hd]; split_ifs with h
    · right; rfl
    · tauto
  · intro h; rw [hp]; simp [h]
  · intro h; rw [hp]; split_ifs <;> omega
  · intro h; rw [hs]; simp [h]
  · intro h; rw [hs]; split_ifs <;> omega
  · intro h; rw [hd]; simp [h]
  · intro h; rw [hd]; split_ifs with hc
    · tauto
    · rfl

/-! ## Claims C1, C2, C3 -/

/-- Claim C1, counterexample: at `total = 0` (with the default normalized
`pageSize = 20`), `NewPaginatedResult` reports `totalPages = 0`, not `1` as
the claim states. -/
theorem C1_counterexample_total_zero :
    (NewPaginatedResult ([] : List Unit) 0 DefaultPagination).totalPages = 0 ∧
      (NewPaginatedResult ([] : List Unit) 0 DefaultPagination).totalPages ≠ 1 := by
  decide

/-- Claim C1 (amended): for every non-negative total and every normalized
pageSize in `[1,100]`, the paginated-result constructor reports
`totalPages = ⌈total / pageSize⌉`; in particular it reports `totalPages = 0`
(not `1`) when `total = 0`. -/
theorem C1_totalPages_eq_ceil {T : Type} (data : List T) (total : Int)
    (params : PaginationParams) (htotal : 0 ≤ total)
    (h1 : 1 ≤ params.pageSize) (h2 : params.pageSize ≤ 100) :
    (NewPaginatedResult data total params).totalPages =
        ⌈(total : ℚ) / (params.pageSize : ℚ)⌉ ∧
      (total = 0 → (NewPaginatedResult data total params).totalPages = 0) := by
  obtain ⟨k1, k2⟩ := newPaginatedResult_totalPages_bounds data total params htotal h1
  have hps : (0 : ℤ) < params.pageSize := by linarith
  have hq : (0 : ℚ) < (params.pageSize : ℚ) := by exact_mod_cast hps
  constructor
  · symm
    rw [Int.ceil_eq_iff]
    constructor
    · rw [lt_div_iff₀ hq]
      exact_mod_cast k1
    · rw [div_le_iff₀ hq]
      exact_mod_cast k2
  · intro h
    subst h
    simp [NewPaginatedResult]

/-- Witness for `C1_totalPages_eq_ceil` at `total = 7`, default params. -/
theorem C1_totalPages_eq_ceil_witness :
    ((0 : ℤ) ≤ 7 ∧ 1 ≤ DefaultPagination.pageSize ∧ DefaultPagination.pageSize ≤ 100) ∧
      ((NewPaginatedResult ([] : List Unit) 7 DefaultPagination).totalPages =
          ⌈((7 : ℤ) : ℚ) / ((DefaultPagination.pageSize : ℤ) : ℚ)⌉ ∧
        ((7 : ℤ) = 0 →
          (NewPaginatedResult ([] : List Unit) 7 DefaultPagination).totalPages = 0)) :=
  ⟨⟨by decide, by decide, by decide⟩,
    C1_totalPages_eq_ceil ([] : List Unit) 7 DefaultPagination
      (by decide) (by decide) (by decide)⟩

/-- Claim C2, counterexample: at `total = 20`, `pageSize = 20` (non-negative
total, pageSize in `[1,100]`), the shared constructor's ceil formula gives `1`
while the handlers' inline formula gives `2`. -/
theorem C2_counterexample_formulas_differ :
    (NewPaginatedResult ([] : List Unit) 20 DefaultPagination).totalPages = 1 ∧
      listMetaTotalPages 20 DefaultPagination.pageSize = 2 ∧
      (NewPaginatedResult ([] : List Unit) 20 DefaultPagination).totalPages ≠
        listMetaTotalPages 20 DefaultPagination.pageSize := by
  decide

/-- Claim C2 (amended): for non-negative total and pageSize in `[1,100]`, the
two formulas agree exactly when the division leaves a remainder; when pageSize
divides total the inline handler formula exceeds the constructor's ceil
formula by one. -/
theorem C2_formulas_agree_iff_remainder (total : Int) (params : PaginationParams)
    (htotal : 0 ≤ total) (h1 : 1 ≤ params.pageSize) (h2 : params.pageSize ≤ 100) :
    (Int.tmod total params.pageSize ≠ 0 →
      listMetaTotalPages total params.pageSize =
        (NewPaginatedResult ([] : List Unit) total params).totalPages) ∧
    (Int.tmod total params.pageSize = 0 →
      listMetaTotalPages total params.pageSize =
        (NewPaginatedResult ([] : List Unit) total params).totalPages + 1) := by
  have hr0 : 0 ≤ Int.tmod total params.pageSize := Int.tmod_nonneg _ htotal
  constructor
  · intro h
    have hpos : Int.tmod total params.pageSize > 0 := lt_of_le_of_ne hr0 (Ne.symm h)
    simp [NewPaginatedResult, listMetaTotalPages, hpos]
  · intro h
    simp [NewPaginatedResult, listMetaTotalPages, h]

/-- Witness for `C2_formulas_agree_iff_remainder` at `total = 25`, default
params (`pageSize = 20`, remainder 5). -/
theorem C2_formulas_agree_iff_remainder_witness :
    ((0 : ℤ) ≤ 25 ∧ 1 ≤ DefaultPagination.pageSize ∧ DefaultPagination.pageSize ≤ 100) ∧
      ((Int.tmod 25 DefaultPagination.pageSize ≠ 0 →
        listMetaTotalPages 25 DefaultPagination.pageSize =
          (NewPaginatedResult ([] : List Unit) 25 DefaultPagination).totalPages) ∧
      (Int.tmod 25 DefaultPagination.pageSize = 0 →
        listMetaTotalPages 25 DefaultPagination.pageSize =
          (NewPaginatedResult ([] : List Unit) 25 DefaultPagination).totalPages + 1)) :=
  ⟨⟨by decide, by decide, by decide⟩,
    C2_formulas_agree_iff_remainder 25 DefaultPagination (by decide) (by decide) (by decide)⟩

/-- Claim C3: normalization yields `page ≥ 1` (replacing `page < 1` by 1),
`pageSize ∈ [1,100]` (under-range replaced by the default 20, over-range
clamped to 100), sort direction in `{asc, desc}` with default `desc`, never
an error (`Normalize` and `parsePaginationParams` are total functions), and
the computed offset equals `(page - 1) * pageSize`.  The same bounds hold for
the output of `parsePaginationParams`, which applies `Normalize` last. -/
theorem C3_normalize_bounds_and_offset (p : PaginationParams) (q : RawQuery) :
    (1 ≤ p.Normalize.page ∧
    1 ≤ p.Normalize.pageSize ∧ p.Normalize.pageSize ≤ 100 ∧
    (p.Normalize.sortDir = "asc" ∨ p.Normalize.sortDir = "desc") ∧
    (p.page < 1 → p.Normalize.page = 1) ∧
    (1 ≤ p.page → p.Normalize.page = p.page) ∧
    (p.pageSize < 1 → p.Normalize.pageSize = 20) ∧
    (p.pageSize > 100 → p.Normalize.pageSize = 100) ∧
    (p.sortDir ≠ "asc" ∧ p.sortDir ≠ "desc" → p.Normalize.sortDir = "desc") ∧
    p.Normalize.Offset = (p.Normalize.page - 1) * p.Normalize.pageSize) ∧
    (1 ≤ (parsePaginationParams q).page ∧
    1 ≤ (parsePaginationParams q).pageSize ∧ (parsePaginationParams q).pageSize ≤ 100 ∧
    ((parsePaginationParams q).sortDir = "asc" ∨ (parsePaginationParams q).sortDir = "desc") ∧
    (parsePaginationParams q).Offset =
      ((parsePaginationParams q).page - 1) * (parsePaginationParams q).pageSize) := by
  have hp := normalize_spec p
  refine ⟨⟨hp.1, hp.2.1, hp.2.2.1, hp.2.2.2.1, hp.2.2.2.2.1, hp.2.2.2.2.2.1,
    hp.2.2.2.2.2.2.1, hp.2.2.2.2.2.2.2.1, hp.2.2.2.2.2.2.2.2.1,
    hp.2.2.2.2.2.2.2.2.2.2.1⟩, ?_⟩
  have hq := normalize_spec
    (let p := DefaultPagination
     let p := match q.page with | some v => { p with page := v } | none => p
     let p := match q.pageSize with | some v => { p with pageSize := v } | none => p
     let p := match q.sortBy with | some v => { p with sortBy := v } | none => p
     match q.sortDir with | some v => { p with sortDir := v } | none => p)
  exact ⟨hq.1, hq.2.1, hq.2.2.1, hq.2.2.2.1, hq.2.2.2.2.2.2.2.2.2.2.1⟩

/-! ## Database state

SQL tables become lists of row structures.  Generated identifiers
(`uuid.New()`) and clock reads (`time.Now()`, `CURRENT_TIMESTAMP`, the
`updated_at` triggers) become explicit `newId` / `now` parameters. -/

/-- Row identifier standing in for a UUID. -/
abbrev Id := Nat

/-- Row of the `users` table (password hash is never read by the embedded code). -/
structure UserRow where
  id : Id
  email : String
  fullName : String
  role : Int
  isActive : Bool
  lastLogin : Option Nat
  createdAt : Nat
  updatedAt : Nat
  deriving Repr, DecidableEq

/-- Row of the `content_types` table. -/
structure ContentTypeRow where
  id : Id
  name : String
  slug : String
  schemaFields : Option String
  isActive : Bool
  displayOrder : Int
  createdAt : Nat
  updatedAt : Nat
  deriving Repr, DecidableEq

/-- Row of the `content_posts` table. -/
structure PostRow where
  id : Id
  contentTypeId : Id
  authorId : Id
  title : String
  slug : String
  excerpt : Option String
  content : Option String
  metadata : Option String
  status : Int
  publishedAt : Option Nat
  viewCount : Int
  createdAt : Nat
  updatedAt : Nat
  deriving Repr, DecidableEq

/-- Row of the `tags` table. -/
structure TagRow where
  id : Id
  name : String
  slug : String
  createdAt : Nat
  deriving Repr, DecidableEq

/-- Row of the `post_tags` association table. -/
structure PostTagRow where
  postId : Id
  tagId : Id
  createdAt : Nat
  deriving Repr, DecidableEq

/-- Row of the `media` table. -/
structure MediaRow where
  id : Id
  fileName : String
  objectKey : String
  bucketName : String
  cdnUrl : Option String
  fileType : Int
  mimeType : String
  fileSize : Int
  dimensions : Option String
  variants : Option String
  altText : Option String
  checksum : Option String
  createdAt : Nat
  deriving Repr, DecidableEq

/-- Row of the `post_media` association table. -/
structure PostMediaRow where
  id : Id
  postId : Id
  mediaId : Id
  mediaRole : Int
  displayOrder : Int
  createdAt : Nat
  deriving Repr, DecidableEq

/-- Row of the `contact_submissions` table. -/
structure ContactRow where
  id : Id
  name : String
  email : String
  phone : Option String
  subject : Option String
  message : String
  status : Int
  ipAddress : Option String
  userAgent : Option String
  metadata : Option String
  readAt : Option Nat
  createdAt : Nat
  deriving Repr, DecidableEq

/-- Row of the `settings` table. -/
structure SettingRow where
  id : Id
  key : String
  value : Option String
  description : Option String
  updatedAt : Nat
  deriving Repr, DecidableEq

/-- The whole relational state. -/
structure DB where
  users : List UserRow
  contentTypes : List ContentTypeRow
  posts : List PostRow
  tags : List TagRow
  postTags : List PostTagRow
  media : List MediaRow
  postMedia : List PostMediaRow
  contacts : List ContactRow
  settings : List SettingRow
  deriving Repr, DecidableEq

/-- Storage-level error codes the repositories inspect (`pgconn.PgError.Code`
`23505` and `23503`). -/
inductive PgError where
  | uniqueViolation
  | fkViolation
  deriving Repr, DecidableEq

/-- Domain error taxonomy of the repository layer (`ErrNotFound`,
`ErrDuplicate`, `ErrForeignKey`, plus the opaque wrapped storage error
produced by `fmt.Errorf`). -/
inductive RepoError where
  | notFound
  | duplicate
  | foreignKey
  | storage
  deriving Repr, DecidableEq

deriving instance DecidableEq for Except

/-- Go `PostStatusDraft`. -/
def postStatusDraft : Int := 1

/-- Go `ContactStatusNew`. -/
def contactStatusNew : Int := 1

/-- Go `ContactStatusRead`. -/
def contactStatusRead : Int := 2

/-! ## Post repository -/

/-- Go `models.CreatePostRequest`. -/
structure CreatePostRequest where
  contentTypeId : Id
  authorId : Id
  title : String
  slug : String
  excerpt : Option String
  content : Option String
  metadata : Option String
  status : Option Int
  publishedAt : Option Nat
  tagIDs : List Id
  deriving Repr, DecidableEq

/-- Go `models.UpdatePostRequest`: every field optional, `tagIDs` is a
pointer to a slice (`none` = leave associations alone, `some []` = clear). -/
structure UpdatePostRequest where
  contentTypeId : Option Id
  title : Option String
  slug : Option String
  excerpt : Option String
  content : Option String
  metadata : Option String
  status : Option Int
  publishedAt : Option Nat
  tagIDs : Option (List Id)
  deriving Repr, DecidableEq

/-- One row of the `post_media ⋈ media` join returned by `getPostMedia`. -/
structure PostMediaFull where
  pm : PostMediaRow
  media : MediaRow
  deriving Repr, DecidableEq

/-- Go `models.ContentPost`: row fields plus the on-demand relations
(`ContentType`, `Author` pointers; `Tags`, `Media` slices, nil ≈ `[]`). -/
structure ContentPost where
  id : Id
  contentTypeId : Id
  authorId : Id
  title : String
  slug : String
  excerpt : Option String
  content : Option String
  metadata : Option String
  status : Int
  publishedAt : Option Nat
  viewCount : Int
  createdAt : Nat
  updatedAt : Nat
  contentType : Option ContentTypeRow
  author : Option UserRow
  tags : List TagRow
  media : List PostMediaFull
  deriving Repr, DecidableEq

/-- The post row constructed at the top of `ContentPostRepository.Create`:
request fields, `Status` defaulted to draft, `view_count`/timestamps from the
`RETURNING` clause (schema defaults `0` / `CURRENT_TIMESTAMP`). -/
def buildPostRow (newId now : Nat) (req : CreatePostRequest) : PostRow :=
  { id := newId, contentTypeId := req.contentTypeId, authorId := req.authorId,
    title := req.title, slug := req.slug, excerpt := req.excerpt,
    content := req.content, metadata := req.metadata,
    status := req.status.getD postStatusDraft, publishedAt := req.publishedAt,
    viewCount := 0, createdAt := now, updatedAt := now }

/-- The `models.ContentPost` value `Create` returns: the row's fields with no
relations loaded (`ContentType`/`Author` nil, `Tags`/`Media` nil slices). -/
def rowToPost (p : PostRow) : ContentPost :=
  { id := p.id, contentTypeId := p.contentTypeId, authorId := p.authorId,
    title := p.title, slug := p.slug, excerpt := p.excerpt, content := p.content,
    metadata := p.metadata, status := p.status, publishedAt := p.publishedAt,
    viewCount := p.viewCount, createdAt := p.createdAt, updatedAt := p.updatedAt,
    contentType := none, author := none, tags := [], media := [] }

/-- The `INSERT INTO content_posts` statement inside the transaction: unique
violation on `id` (primary key) or `slug`, foreign-key violation when the
content type or author is absent. -/
def insertPostTx (db : DB) (row : PostRow) : Except PgError DB :=
  if db.posts.any (fun p => p.id == row.id || p.slug == row.slug) then
    .error .uniqueViolation
  else if db.contentTypes.any (fun ct => ct.id == row.contentTypeId) then
    if db.users.any (fun u => u.id == row.authorId) then
      .ok { db with posts := db.posts ++ [row] }
    else .error .fkViolation
  else .error .fkViolation

/-- One `INSERT INTO post_tags ... ON CONFLICT DO NOTHING` inside the
transaction: an existing `(post, tag)` pair is skipped, a missing post or tag
raises a foreign-key violation. -/
def insertPostTagTx (db : DB) (now : Nat) (postId tagId : Id) : Except PgError DB :=
  if db.postTags.any (fun pt => pt.postId == postId && pt.tagId == tagId) then
    .ok db
  else if db.posts.any (fun p => p.id == postId) then
    if db.tags.any (fun t => t.id == tagId) then
      .ok { db with postTags :=
        db.postTags ++ [{ postId := postId, tagId := tagId, createdAt := now }] }
    else .error .fkViolation
  else .error .fkViolation

/-- Go `attachTagsTx`: insert each tag id in order; any statement error is
wrapped by `fmt.Errorf` (an opaque storage error, not remapped). -/
def attachTagsTx (now : Nat) (postId : Id) : List Id → DB → Except RepoError DB
  | [], db => .ok db
  | t :: ts, db =>
    match insertPostTagTx db now postId t with
    | .error _ => .error .storage
    | .ok db2 => attachTagsTx now postId ts db2

/-- The body of `ContentPostRepository.Create` between `Begin` and `Commit`. -/
def postCreateTx (newId now : Nat) (req : CreatePostRequest) (db : DB) :
    Except RepoError (DB × ContentPost) :=
  match insertPostTx db (buildPostRow newId now req) with
  | .error .uniqueViolation => .error .duplicate
  | .error .fkViolation => .error .foreignKey
  | .ok db1 =>
    if req.tagIDs.length > 0 then
      match attachTagsTx now (buildPostRow newId now req).id req.tagIDs db1 with
      | .error e => .error e
      | .ok db2 => .ok (db2, rowToPost (buildPostRow newId now req))
    else .ok (db1, rowToPost (buildPostRow newId now req))

/-- Transaction runner: `Begin` takes a snapshot, `Commit` installs the new
state, the deferred `Rollback` on any error discards it. -/
def runTx {α : Type} (db : DB) (act : DB → Except RepoError (DB × α)) :
    DB × Except RepoError α :=
  match act db with
  | .ok (db2, a) => (db2, .ok a)
  | .error e => (db, .error e)

/-- Go `ContentPostRepository.Create`. -/
def postCreate (db : DB) (newId now : Nat) (req : CreatePostRequest) :
    DB × Except RepoError ContentPost :=
  runTx db (postCreateTx newId now req)

/-- Insert into a sorted list, keeping earlier equal elements first. -/
def insertSorted {α : Type} (le : α → α → Bool) (a : α) : List α → List α
  | [] => [a]
  | b :: bs => if le a b then a :: b :: bs else b :: insertSorted le a bs

/-- Stable insertion sort modelling the SQL `ORDER BY` clause. -/
def sortByKey {α : Type} (le : α → α → Bool) : List α → List α
  | [] => []
  | a :: as => insertSorted le a (sortByKey le as)

/-- Go `getPostTags`: `tags ⋈ post_tags` filtered by the post, `ORDER BY t.name`. -/
def getPostTags (db : DB) (postId : Id) : List TagRow :=
  sortByKey (fun a b => decide (a.name ≤ b.name))
    (db.tags.filter (fun t =>
      db.postTags.any (fun pt => pt.postId == postId && pt.tagId == t.id)))

/-- Go `getPostMedia`: `post_media ⋈ media` filtered by the post,
`ORDER BY pm.display_order`. -/
def getPostMedia (db : DB) (postId : Id) : List PostMediaFull :=
  sortByKey (fun a b => decide (a.pm.displayOrder ≤ b.pm.displayOrder))
    ((db.postMedia.filter (fun pm => pm.postId == postId)).filterMap
      (fun pm => (db.media.find? (fun m => m.id == pm.mediaId)).map
        (fun m => { pm := pm, media := m })))

/-- Go `ContentPostRepository.GetByID`: the three-way join returns no row when
the post, its content type, or its author is absent (`ErrNotFound`), otherwise
the aggregate with tags and media always loaded. -/
def postGetByID (db : DB) (id : Id) : Except RepoError ContentPost :=
  match db.posts.find? (fun p => p.id == id) with
  | none => .error .notFound
  | some p =>
    match db.contentTypes.find? (fun ct => ct.id == p.contentTypeId),
          db.users.find? (fun u => u.id == p.authorId) with
    | some ct, some u =>
      .ok { id := p.id, contentTypeId := p.contentTypeId, authorId := p.authorId,
            title := p.title, slug := p.slug, excerpt := p.excerpt,
            content := p.content, metadata := p.metadata, status := p.status,
            publishedAt := p.publishedAt, viewCount := p.viewCount,
            createdAt := p.createdAt, updatedAt := p.updatedAt,
            contentType := some ct, author := some u,
            tags := getPostTags db p.id, media := getPostMedia db p.id }
    | _, _ => .error .notFound

/-- True when the update request contributes at least one SQL `SET` clause
(every field except `TagIDs`). -/
def UpdatePostRequest.hasSetClauses (req : UpdatePostRequest) : Bool :=
  req.contentTypeId.isSome || req.title.isSome || req.slug.isSome ||
  req.excerpt.isSome || req.content.isSome || req.metadata.isSome ||
  req.status.isSome || req.publishedAt.isSome

/-- The row produced by the dynamic `UPDATE content_posts SET ...`: present
fields overwrite, absent fields are left alone, the `updated_at` trigger
stamps the clock. -/
def applyPostUpdate (p : PostRow) (req : UpdatePostRequest) (now : Nat) : PostRow :=
  { p with
    contentTypeId := req.contentTypeId.getD p.contentTypeId,
    title := req.title.getD p.title,
    slug := req.slug.getD p.slug,
    excerpt := match req.excerpt with | some e => some e | none => p.excerpt,
    content := match req.content with | some c => some c | none => p.content,
    metadata := match req.metadata with | some m => some m | none => p.metadata,
    status := req.status.getD p.status,
    publishedAt := match req.publishedAt with | some t => some t | none => p.publishedAt,
    updatedAt := now }

/-- The dynamic `UPDATE content_posts` statement inside the transaction:
skipped entirely when no `SET` clause is present; zero affected rows is
`ErrNotFound`; unique violation on the new slug is `ErrDuplicate`; a missing
new content type is `ErrForeignKey`. -/
def updatePostRowTx (db : DB) (now : Nat) (id : Id) (req : UpdatePostRequest) :
    Except RepoError DB :=
  if req.hasSetClauses then
    match db.posts.find? (fun p => p.id == id) with
    | none => .error .notFound
    | some p =>
      if db.posts.any (fun q => q.id != id && q.slug == (applyPostUpdate p req now).slug) then
        .error .duplicate
      else if db.contentTypes.any (fun ct => ct.id == (applyPostUpdate p req now).contentTypeId) then
        .ok { db with posts :=
          db.posts.map (fun q => if q.id == id then applyPostUpdate p req now else q) }
      else .error .foreignKey
  else .ok db

/-- The body of `ContentPostRepository.Update` between `Begin` and `Commit`:
row update, then — only when `TagIDs` is present — delete all of the post's
tag associations and re-insert the provided set. -/
def postUpdateTx (now : Nat) (id : Id) (req : UpdatePostRequest) (db : DB) :
    Except RepoError DB :=
  match updatePostRowTx db now id req with
  | .error e => .error e
  | .ok db1 =>
    match req.tagIDs with
    | none => .ok db1
    | some l =>
      if l.length > 0 then
        attachTagsTx now id l
          { db1 with postTags := db1.postTags.filter (fun pt => pt.postId != id) }
      else .ok { db1 with postTags := db1.postTags.filter (fun pt => pt.postId != id) }

/-- Go `ContentPostRepository.Update`: run the transaction, then reload the
aggregate through `GetByID` on the committed state. -/
def postUpdate (db : DB) (now : Nat) (id : Id) (req : UpdatePostRequest) :
    DB × Except RepoError ContentPost :=
  match postUpdateTx now id req db with
  | .error e => (db, .error e)
  | .ok db2 => (db2, postGetByID db2 id)

/-! ## Contact repository -/

/-- Go `models.UpdateContactRequest`: only the status is updatable; the read
timestamp has no request field at all. -/
structure UpdateContactRequest where
  status : Option Int
  deriving Repr, DecidableEq

/-- Go `ContactRepository.GetByID`. -/
def contactGetByID (db : DB) (id : Id) : Except RepoError ContactRow :=
  match db.contacts.find? (fun c => c.id == id) with
  | some c => .ok c
  | none => .error .notFound

/-- Go `ContactRepository.Update`: with no `SET` clause it just reads; with a
status present it sets the status and — whenever the requested status equals
"read" — also stamps `read_at = time.Now()`; the row is returned via
`RETURNING`.  `contact_submissions` has no `updated_at` trigger. -/
def contactUpdate (db : DB) (now : Nat) (id : Id) (req : UpdateContactRequest) :
    DB × Except RepoError ContactRow :=
  match req.status with
  | none => (db, contactGetByID db id)
  | some s =>
    match db.contacts.find? (fun c => c.id == id) with
    | none => (db, .error .notFound)
    | some c =>
      let c2 := { c with
        status := s
        readAt := if s == contactStatusRead then some now else c.readAt }
      ({ db with contacts := db.contacts.map (fun x => if x.id == id then c2 else x) },
        .ok c2)

/-! ## Setting repository -/

/-- Go `models.CreateSettingRequest` (also the `Upsert` payload). -/
structure CreateSettingRequest where
  key : String
  value : Option String
  description : Option String
  deriving Repr, DecidableEq

/-- Go `models.UpdateSettingRequest`. -/
structure UpdateSettingRequest where
  value : Option String
  description : Option String
  deriving Repr, DecidableEq

/-- Go `SettingRepository.GetByKey`. -/
def settingGetByKey (db : DB) (key : String) : Except RepoError SettingRow :=
  match db.settings.find? (fun s => s.key == key) with
  | some s => .ok s
  | none => .error .notFound

/-- Go `SettingRepository.Upsert`: `INSERT ... ON CONFLICT (key) DO UPDATE SET
value, description RETURNING id, updated_at`.  On conflict the stored row
keeps its id, gets the new value/description, and the `settings` trigger
stamps `updated_at`; otherwise one fresh row is inserted.  A primary-key
collision of the fresh id is not remapped (wrapped storage error). -/
def settingUpsert (db : DB) (newId now : Nat) (req : CreateSettingRequest) :
    DB × Except RepoError SettingRow :=
  match db.settings.find? (fun s => s.key == req.key) with
  | some s =>
    let s2 := { s with
      value := req.value
      description := req.description
      updatedAt := now }
    ({ db with settings := db.settings.map (fun x => if x.key == req.key then s2 else x) },
      .ok s2)
  | none =>
    if db.settings.any (fun s => s.id == newId) then (db, .error .storage)
    else
      let s : SettingRow := { id := newId, key := req.key, value := req.value,
                              description := req.description, updatedAt := now }
      ({ db with settings := db.settings ++ [s] }, .ok s)

/-- Go `SettingRepository.Update` (keyed by `key`): no present field means no
write, just `GetByKey`; otherwise overwrite the present fields and let the
trigger stamp `updated_at`. -/
def settingUpdate (db : DB) (now : Nat) (key : String) (req : UpdateSettingRequest) :
    DB × Except RepoError SettingRow :=
  if req.value.isNone && req.description.isNone then
    (db, settingGetByKey db key)
  else
    match db.settings.find? (fun s => s.key == key) with
    | none => (db, .error .notFound)
    | some s =>
      let s2 := { s with
        value := match req.value with | some v => some v | none => s.value,
        description := match req.description with | some d => some d | none => s.description,
        updatedAt := now }
      ({ db with settings := db.settings.map (fun x => if x.key == key then s2 else x) },
        .ok s2)

/-! ## Tag repository -/

/-- Go `models.UpdateTagRequest`. -/
structure UpdateTagRequest where
  name : Option String
  slug : Option String
  deriving Repr, DecidableEq

/-- Go `TagRepository.GetByID`. -/
def tagGetByID (db : DB) (id : Id) : Except RepoError TagRow :=
  match db.tags.find? (fun t => t.id == id) with
  | some t => .ok t
  | none => .error .notFound

/-- Go `TagRepository.Update`: no present field means no write, just
`GetByID`; otherwise overwrite the present fields, mapping a `name`/`slug`
unique violation to `ErrDuplicate`.  `tags` has no update trigger. -/
def tagUpdate (db : DB) (id : Id) (req : UpdateTagRequest) :
    DB × Except RepoError TagRow :=
  if req.name.isNone && req.slug.isNone then
    (db, tagGetByID db id)
  else
    match db.tags.find? (fun t => t.id == id) with
    | none => (db, .error .notFound)
    | some t =>
      let t2 := { t with name := req.name.getD t.name, slug := req.slug.getD t.slug }
      if db.tags.any (fun u => u.id != id && (u.name == t2.name || u.slug == t2.slug)) then
        (db, .error .duplicate)
      else
        ({ db with tags := db.tags.map (fun u => if u.id == id then t2 else u) }, .ok t2)

/-! ## Media repository -/

/-- Go `models.UpdateMediaRequest`: only file name, CDN URL, dimensions,
variants and alt text are updatable. -/
structure UpdateMediaRequest where
  fileName : Option String
  cdnUrl : Option String
  dimensions : Option String
  variants : Option String
  altText : Option String
  deriving Repr, DecidableEq

/-- Go `MediaRepository.GetByID`. -/
def mediaGetByID (db : DB) (id : Id) : Except RepoError MediaRow :=
  match db.media.find? (fun m => m.id == id) with
  | some m => .ok m
  | none => .error .notFound

/-- Go `MediaRepository.Update`: no present field means no write, just
`GetByID`; none of the updatable columns is unique, so the only errors are
zero affected rows (`ErrNotFound`).  `media` has no update trigger. -/
def mediaUpdate (db : DB) (id : Id) (req : UpdateMediaRequest) :
    DB × Except RepoError MediaRow :=
  if req.fileName.isNone && req.cdnUrl.isNone && req.dimensions.isNone &&
      req.variants.isNone && req.altText.isNone then
    (db, mediaGetByID db id)
  else
    match db.media.find? (fun m => m.id == id) with
    | none => (db, .error .notFound)
    | some m =>
      let m2 := { m with
        fileName := req.fileName.getD m.fileName,
        cdnUrl := match req.cdnUrl with | some v => some v | none => m.cdnUrl,
        dimensions := match req.dimensions with | some v => some v | none => m.dimensions,
        variants := match req.variants with | some v => some v | none => m.variants,
        altText := match req.altText with | some v => some v | none => m.altText }
      ({ db with media := db.media.map (fun x => if x.id == id then m2 else x) }, .ok m2)

/-! ## Content type repository -/

/-- Go `models.UpdateContentTypeRequest`. -/
structure UpdateContentTypeRequest where
  name : Option String
  slug : Option String
  schemaFields : Option String
  isActive : Option Bool
  displayOrder : Option Int
  deriving Repr, DecidableEq

/-- Go `ContentTypeRepository.GetByID`. -/
def contentTypeGetByID (db : DB) (id : Id) : Except RepoError ContentTypeRow :=
  match db.contentTypes.find? (fun ct => ct.id == id) with
  | some ct => .ok ct
  | none => .error .notFound

/-- Go `ContentTypeRepository.Update`: no present field means no write, just
`GetByID`; otherwise overwrite the present fields (trigger stamps
`updated_at`), mapping a `name`/`slug` unique violation to `ErrDuplicate`. -/
def contentTypeUpdate (db : DB) (now : Nat) (id : Id) (req : UpdateContentTypeRequest) :
    DB × Except RepoError ContentTypeRow :=
  if req.name.isNone && req.slug.isNone && req.schemaFields.isNone &&
      req.isActive.isNone && req.displayOrder.isNone then
    (db, contentTypeGetByID db id)
  else
    match db.contentTypes.find? (fun ct => ct.id == id) with
    | none => (db, .error .notFound)
    | some ct =>
      let ct2 := { ct with
        name := req.name.getD ct.name,
        slug := req.slug.getD ct.slug,
        schemaFields := match req.schemaFields with | some v => some v | none => ct.schemaFields,
        isActive := req.isActive.getD ct.isActive,
        displayOrder := req.displayOrder.getD ct.displayOrder,
        updatedAt := now }
      if db.contentTypes.any (fun u => u.id != id && (u.name == ct2.name || u.slug == ct2.slug)) then
        (db, .error .duplicate)
      else
        ({ db with contentTypes := db.contentTypes.map (fun u => if u.id == id then ct2 else u) },
          .ok ct2)

/-- Go `ContentTypeRepository.Delete`: a referenced content type raises the
`ON DELETE RESTRICT` foreign-key violation (`ErrForeignKey`); an absent row
deletes nothing (`ErrNotFound`); otherwise the row is removed. -/
def contentTypeDelete (db : DB) (id : Id) : DB × Except RepoError Unit :=
  if db.contentTypes.any (fun ct => ct.id == id) then
    if db.posts.any (fun p => p.contentTypeId == id) then
      (db, .error .foreignKey)
    else
      ({ db with contentTypes := db.contentTypes.filter (fun ct => ct.id != id) }, .ok ())
  else (db, .error .notFound)


/-! ## Claims C6, C7, C8, C10 -/

/-- Concrete contact row for claim C6: already in status "read", read
timestamp 5. -/
def c6contact : ContactRow :=
  { id := 1, name := "a", email := "e", phone := none, subject := none,
    message := "m", status := 2, ipAddress := none, userAgent := none,
    metadata := none, readAt := some 5, createdAt := 0 }

/-- Concrete state for claim C6. -/
def c6db : DB :=
  { users := [], contentTypes := [], posts := [], tags := [], postTags := [],
    media := [], postMedia := [], contacts := [c6contact], settings := [] }

/-- Claim C6, counterexample: the stored contact is already in status "read"
with read timestamp 5; re-issuing a status update to "read" at time 9
re-stamps the timestamp to 9, so it does not move from null to a set value
exactly once. -/
theorem C6_counterexample_restamp :
    (contactGetByID c6db 1 = .ok c6contact ∧ c6contact.readAt = some 5) ∧
    (contactGetByID (contactUpdate c6db 9 1 { status := some 2 }).1 1 =
      .ok { c6contact with readAt := some 9 }) ∧
    (some 9 : Option Nat) ≠ some 5 := by
  decide

/-- Claim C6 (amended): the contact repository update stamps the read
timestamp with the current clock exactly when the requested status equals
"read" — including when the stored status is already "read", in which case it
re-stamps — and leaves it untouched for any other requested status; the
timestamp is never settable directly, since `UpdateContactRequest` carries
only a status field. -/
theorem C6_readAt_stamped_iff_status_read (db : DB) (now : Nat) (id : Id)
    (s : Int) (c : ContactRow)
    (hc : db.contacts.find? (fun x => x.id == id) = some c) :
    ∃ c2, (contactUpdate db now id { status := some s }).2 = .ok c2 ∧
      c2.readAt = (if s = contactStatusRead then some now else c.readAt) ∧
      c2.status = s ∧ c2.id = c.id ∧ c2.name = c.name ∧ c2.email = c.email ∧
      c2.phone = c.phone ∧ c2.subject = c.subject ∧ c2.message = c.message ∧
      c2.ipAddress = c.ipAddress ∧ c2.userAgent = c.userAgent ∧
      c2.metadata = c.metadata ∧ c2.createdAt = c.createdAt ∧
      (contactUpdate db now id { status := some s }).1.contacts =
        db.contacts.map (fun x => if x.id == id then c2 else x) := by
  refine ⟨{ c with
      status := s
      readAt := if s == contactStatusRead then some now else c.readAt },
    by simp [contactUpdate, hc], ?_, rfl, rfl, rfl, rfl, rfl, rfl, rfl, rfl,
    rfl, rfl, rfl, by simp [contactUpdate, hc]⟩
  by_cases h : s = contactStatusRead <;> simp [h]

/-- Witness for `C6_readAt_stamped_iff_status_read` on `c6db`. -/
theorem C6_readAt_stamped_iff_status_read_witness :
    (c6db.contacts.find? (fun x => x.id == 1) = some c6contact) ∧
    ∃ c2, (contactUpdate c6db 9 1 { status := some 2 }).2 = .ok c2 ∧
      c2.readAt = (if (2 : Int) = contactStatusRead then some 9 else c6contact.readAt) ∧
      c2.status = 2 ∧ c2.id = c6contact.id ∧ c2.name = c6contact.name ∧
      c2.email = c6contact.email ∧ c2.phone = c6contact.phone ∧
      c2.subject = c6contact.subject ∧ c2.message = c6contact.message ∧
      c2.ipAddress = c6contact.ipAddress ∧ c2.userAgent = c6contact.userAgent ∧
      c2.metadata = c6contact.metadata ∧ c2.createdAt = c6contact.createdAt ∧
      (contactUpdate c6db 9 1 { status := some 2 }).1.contacts =
        c6db.contacts.map (fun x => if x.id == 1 then c2 else x) :=
  ⟨by decide, C6_readAt_stamped_iff_status_read c6db 9 1 2 c6contact (by decide)⟩

/-- Claim C7: upsert with an existing key replaces only that row's value and
description in place (same identifier, no second row for the key); upsert with
a fresh key appends exactly one new row for it. -/
theorem C7_setting_upsert_in_place_or_insert (db : DB) (newId now : Nat)
    (req : CreateSettingRequest) :
    (∀ s, db.settings.find? (fun x => x.key == req.key) = some s →
      ∃ s2, (settingUpsert db newId now req).2 = .ok s2 ∧
        s2.id = s.id ∧ s2.key = s.key ∧ s2.value = req.value ∧
        s2.description = req.description ∧
        (settingUpsert db newId now req).1.settings =
          db.settings.map (fun x => if x.key == req.key then s2 else x) ∧
        (settingUpsert db newId now req).1.settings.length = db.settings.length ∧
        (settingUpsert db newId now req).1.settings.countP (fun x => x.key == req.key) =
          db.settings.countP (fun x => x.key == req.key)) ∧
    (db.settings.all (fun x => x.key != req.key) = true →
      db.settings.all (fun x => x.id != newId) = true →
      (settingUpsert db newId now req).1.settings =
        db.settings ++ [{ id := newId, key := req.key, value := req.value,
                          description := req.description, updatedAt := now }] ∧
      (settingUpsert db newId now req).1.settings.countP (fun x => x.key == req.key) = 1) := by
  constructor
  · intro s hs
    have hkey := List.find?_some hs
    refine ⟨{ s with
        value := req.value
        description := req.description
        updatedAt := now },
      by simp [settingUpsert, hs], rfl, rfl, rfl, rfl,
      by simp [settingUpsert, hs], by simp [settingUpsert, hs], ?_⟩
    simp only [settingUpsert, hs]
    rw [List.countP_map]
    apply List.countP_congr
    intro a _
    by_cases h : (a.key == req.key) = true <;> simp_all [Function.comp]
  · intro hall hid
    have hfind : db.settings.find? (fun x => x.key == req.key) = none := by
      rw [List.find?_eq_none]
      intro x hx
      have := List.all_eq_true.mp hall x hx
      simpa using this
    have hany : db.settings.any (fun x => x.id == newId) = false := by
      rw [List.any_eq_false]
      intro x hx
      have := List.all_eq_true.mp hid x hx
      simpa using this
    have hcount : db.settings.countP (fun x => x.key == req.key) = 0 := by
      rw [List.countP_eq_zero]
      intro x hx
      have := List.all_eq_true.mp hall x hx
      simpa using this
    refine ⟨by simp [settingUpsert, hfind, hany], ?_⟩
    simp [settingUpsert, hfind, hany, List.countP_append, hcount]

/-- Concrete stored setting row for the claim C7 witness. -/
def c7setting : SettingRow :=
  { id := 5, key := "site", value := some "v", description := none, updatedAt := 0 }

/-- Concrete state for the claim C7 witness. -/
def c7db : DB :=
  { users := [], contentTypes := [], posts := [], tags := [], postTags := [],
    media := [], postMedia := [], contacts := [], settings := [c7setting] }

/-- Witness for `C7_setting_upsert_in_place_or_insert`: replace the stored
key "site", and insert the fresh key "nav". -/
theorem C7_setting_upsert_in_place_or_insert_witness :
    ((c7db.settings.find? (fun x => x.key == ("site" : String)) = some c7setting) ∧
      ∃ s2, (settingUpsert c7db 9 4
        { key := "site", value := some "w", description := some "d" }).2 = .ok s2 ∧
        s2.id = 5 ∧ s2.key = "site" ∧ s2.value = some "w" ∧ s2.description = some "d") ∧
    ((settingUpsert c7db 9 4 { key := "nav", value := none, description := none }).1.settings =
      c7db.settings ++ [{ id := 9, key := "nav", value := none,
                          description := none, updatedAt := 4 }]) := by
  constructor
  · refine ⟨by decide, ?_⟩
    obtain ⟨s2, h1, h2, h3, h4, h5, -⟩ :=
      (C7_setting_upsert_in_place_or_insert c7db 9 4
        { key := "site", value := some "w", description := some "d" }).1
        c7setting (by decide)
    exact ⟨s2, h1, h2, by rw [h3]; decide, h4, h5⟩
  · exact ((C7_setting_upsert_in_place_or_insert c7db 9 4
      { key := "nav", value := none, description := none }).2
      (by decide) (by decide)).1

/-- Claim C8: deleting a content type with at least one referencing post
fails with the foreign-key error and leaves the row stored; deleting one with
zero referencing posts succeeds, and a subsequent get returns not-found. -/
theorem C8_contentType_delete_fk_or_gone (db : DB) (id : Id) (ct : ContentTypeRow)
    (hct : db.contentTypes.find? (fun x => x.id == id) = some ct) :
    ((∃ p ∈ db.posts, p.contentTypeId = id) →
      (contentTypeDelete db id).2 = .error .foreignKey ∧
      (contentTypeDelete db id).1 = db ∧
      contentTypeGetByID (contentTypeDelete db id).1 id = .ok ct) ∧
    (db.posts.all (fun p => p.contentTypeId != id) = true →
      (contentTypeDelete db id).2 = .ok () ∧
      contentTypeGetByID (contentTypeDelete db id).1 id = .error .notFound) := by
  have hmem := List.mem_of_find?_eq_some hct
  have hpred := List.find?_some hct
  have hexists : db.contentTypes.any (fun x => x.id == id) = true := by
    rw [List.any_eq_true]
    exact ⟨ct, hmem, hpred⟩
  constructor
  · rintro ⟨p, hp, hpid⟩
    have hany : db.posts.any (fun q => q.contentTypeId == id) = true := by
      rw [List.any_eq_true]
      exact ⟨p, hp, by simp [hpid]⟩
    refine ⟨by simp [contentTypeDelete, hexists, hany],
      by simp [contentTypeDelete, hexists, hany], ?_⟩
    simp [contentTypeDelete, hexists, hany, contentTypeGetByID, hct]
  · intro hall
    have hany : db.posts.any (fun q => q.contentTypeId == id) = false := by
      rw [List.any_eq_false]
      intro x hx
      have := List.all_eq_true.mp hall x hx
      simpa using this
    have hfind : (db.contentTypes.filter (fun x => x.id != id)).find?
        (fun x => x.id == id) = none := by
      rw [List.find?_eq_none]
      intro x hx
      have := (List.mem_filter.mp hx).2
      simpa using this
    constructor
    · simp [contentTypeDelete, hexists, hany]
    · simp [contentTypeDelete, hexists, hany, contentTypeGetByID, hfind]

/-- Concrete content type rows for the claim C8 witness. -/
def c8ct1 : ContentTypeRow :=
  { id := 1, name := "n1", slug := "s1", schemaFields := none, isActive := true,
    displayOrder := 0, createdAt := 0, updatedAt := 0 }

/-- Second content type of the claim C8 witness, unreferenced. -/
def c8ct2 : ContentTypeRow :=
  { id := 2, name := "n2", slug := "s2", schemaFields := none, isActive := true,
    displayOrder := 0, createdAt := 0, updatedAt := 0 }

/-- Post referencing content type 1 in the claim C8 witness. -/
def c8post : PostRow :=
  { id := 10, contentTypeId := 1, authorId := 20, title := "t", slug := "p",
    excerpt := none, content := none, metadata := none, status := 1,
    publishedAt := none, viewCount := 0, createdAt := 0, updatedAt := 0 }

/-- Concrete state for the claim C8 witness. -/
def c8db : DB :=
  { users := [], contentTypes := [c8ct1, c8ct2], posts := [c8post],
    tags := [], postTags := [], media := [], postMedia := [], contacts := [],
    settings := [] }

/-- Witness for `C8_contentType_delete_fk_or_gone` on `c8db`: deleting type 1
fails with the foreign-key error, deleting type 2 succeeds and the row is
gone. -/
theorem C8_contentType_delete_fk_or_gone_witness :
    ((contentTypeDelete c8db 1).2 = .error .foreignKey ∧
      (contentTypeDelete c8db 1).1 = c8db ∧
      contentTypeGetByID (contentTypeDelete c8db 1).1 1 = .ok c8ct1) ∧
    ((contentTypeDelete c8db 2).2 = .ok () ∧
      contentTypeGetByID (contentTypeDelete c8db 2).1 2 = .error .notFound) :=
  ⟨(C8_contentType_delete_fk_or_gone c8db 1 c8ct1 (by decide)).1
      ⟨c8post, by decide, rfl⟩,
    (C8_contentType_delete_fk_or_gone c8db 2 c8ct2 (by decide)).2 (by decide)⟩

/-- Claim C10: for every partial-update operation (tags, media, settings,
content types, contacts), a request with no optional field present performs
no write at all — the state is returned unchanged and the result is exactly
the read: the stored entity when the identifier or key exists, not-found when
it does not. -/
theorem C10_empty_partial_update_is_read (db : DB) (now : Nat) (id : Id) (key : String) :
    (tagUpdate db id { name := none, slug := none } = (db, tagGetByID db id) ∧
      mediaUpdate db id { fileName := none, cdnUrl := none, dimensions := none, variants := none, altText := none } = (db, mediaGetByID db id) ∧
      settingUpdate db now key { value := none, description := none } =
        (db, settingGetByKey db key) ∧
      contentTypeUpdate db now id { name := none, slug := none, schemaFields := none, isActive := none, displayOrder := none } = (db, contentTypeGetByID db id) ∧
      contactUpdate db now id { status := none } = (db, contactGetByID db id)) ∧
    ((∀ t, db.tags.find? (fun x => x.id == id) = some t → tagGetByID db id = .ok t) ∧
      (db.tags.find? (fun x => x.id == id) = none → tagGetByID db id = .error .notFound) ∧
      (∀ m, db.media.find? (fun x => x.id == id) = some m → mediaGetByID db id = .ok m) ∧
      (db.media.find? (fun x => x.id == id) = none → mediaGetByID db id = .error .notFound) ∧
      (∀ s, db.settings.find? (fun x => x.key == key) = some s →
        settingGetByKey db key = .ok s) ∧
      (db.settings.find? (fun x => x.key == key) = none →
        settingGetByKey db key = .error .notFound) ∧
      (∀ ct, db.contentTypes.find? (fun x => x.id == id) = some ct →
        contentTypeGetByID db id = .ok ct) ∧
      (db.contentTypes.find? (fun x => x.id == id) = none →
        contentTypeGetByID db id = .error .notFound) ∧
      (∀ c, db.contacts.find? (fun x => x.id == id) = some c →
        contactGetByID db id = .ok c) ∧
      (db.contacts.find? (fun x => x.id == id) = none →
        contactGetByID db id = .error .notFound)) := by
  refine ⟨⟨rfl, rfl, rfl, rfl, rfl⟩,
    fun t h => by simp [tagGetByID, h], fun h => by simp [tagGetByID, h],
    fun m h => by simp [mediaGetByID, h], fun h => by simp [mediaGetByID, h],
    fun s h => by simp [settingGetByKey, h], fun h => by simp [settingGetByKey, h],
    fun ct h => by simp [contentTypeGetByID, h], fun h => by simp [contentTypeGetByID, h],
    fun c h => by simp [contactGetByID, h], fun h => by simp [contactGetByID, h]⟩

/-! ## Claim C5 -/

/-- After deleting every `post_tags` row of a post, the tag join for that
post is empty. -/
lemma getPostTags_cleared (db : DB) (id : Id) :
    getPostTags { db with postTags := db.postTags.filter (fun pt => pt.postId != id) } id = [] := by
  unfold getPostTags
  have hfil : db.tags.filter (fun t =>
      (db.postTags.filter (fun pt => pt.postId != id)).any
        (fun pt => pt.postId == id && pt.tagId == t.id)) = [] := by
    rw [List.filter_eq_nil_iff]
    intro t _ hany
    rw [List.any_eq_true] at hany
    obtain ⟨pt, hpt, hid⟩ := hany
    have hmem := (List.mem_filter.mp hpt).2
    simp only [Bool.and_eq_true, beq_iff_eq] at hid
    simp [hid.1] at hmem
  simp only [hfil, sortByKey]

/-- The media join does not read the `post_tags` table. -/
lemma getPostMedia_postTags (db : DB) (X : List PostTagRow) (id : Id) :
    getPostMedia { db with postTags := X } id = getPostMedia db id := rfl

/-- The update request that clears a post's tag set: every row field absent,
`tag_ids` present and equal to the empty list. -/
def clearTagsReq : UpdatePostRequest :=
  { contentTypeId := none, title := none, slug := none, excerpt := none,
    content := none, metadata := none, status := none, publishedAt := none,
    tagIDs := some [] }

/-- Claim C5: updating an existing post with `tag_ids = []` deletes all of
that post's tag associations, leaves the post row (and every other table)
untouched, and the reload performed by `Update` returns the post with an
empty tag list and all non-tag fields unchanged. -/
theorem C5_clear_tags_keeps_post (db : DB) (now : Nat) (id : Id) (p : PostRow)
    (hp : db.posts.find? (fun q => q.id == id) = some p)
    (ct : ContentTypeRow)
    (hct : db.contentTypes.find? (fun c => c.id == p.contentTypeId) = some ct)
    (u : UserRow) (hu : db.users.find? (fun x => x.id == p.authorId) = some u) :
    (postUpdate db now id clearTagsReq).1.posts = db.posts ∧
    (postUpdate db now id clearTagsReq).1.postTags =
      db.postTags.filter (fun pt => pt.postId != id) ∧
    (postUpdate db now id clearTagsReq).1.contentTypes = db.contentTypes ∧
    (postUpdate db now id clearTagsReq).1.media = db.media ∧
    (postUpdate db now id clearTagsReq).1.postMedia = db.postMedia ∧
    (postUpdate db now id clearTagsReq).2 =
      .ok { id := p.id, contentTypeId := p.contentTypeId, authorId := p.authorId,
            title := p.title, slug := p.slug, excerpt := p.excerpt,
            content := p.content, metadata := p.metadata, status := p.status,
            publishedAt := p.publishedAt, viewCount := p.viewCount,
            createdAt := p.createdAt, updatedAt := p.updatedAt,
            contentType := some ct, author := some u,
            tags := [], media := getPostMedia db p.id } := by
  have hpid : p.id = id := by simpa using List.find?_some hp
  have hstep : postUpdateTx now id clearTagsReq db =
      .ok { db with postTags := db.postTags.filter (fun pt => pt.postId != id) } := rfl
  have hpu : postUpdate db now id clearTagsReq =
      ({ db with postTags := db.postTags.filter (fun pt => pt.postId != id) },
        postGetByID { db with postTags := db.postTags.filter (fun pt => pt.postId != id) } id) := by
    unfold postUpdate
    rw [hstep]
  rw [hpu]
  refine ⟨rfl, rfl, rfl, rfl, rfl, ?_⟩
  have htags : getPostTags
      { db with postTags := db.postTags.filter (fun pt => pt.postId != id) } p.id = [] := by
    rw [hpid]
    exact getPostTags_cleared db id
  simp [postGetByID, hp, hct, hu, htags, getPostMedia_postTags]

/-- Tag row of the claim C5 witness. -/
def c5tag : TagRow := { id := 3, name := "t", slug := "ts", createdAt := 0 }

/-- Author row of the claim C5 witness. -/
def c5user : UserRow :=
  { id := 20, email := "e", fullName := "f", role := 1, isActive := true,
    lastLogin := none, createdAt := 0, updatedAt := 0 }

/-- Content type row of the claim C5 witness. -/
def c5ct : ContentTypeRow :=
  { id := 1, name := "n", slug := "s", schemaFields := none, isActive := true,
    displayOrder := 0, createdAt := 0, updatedAt := 0 }

/-- Post row of the claim C5 witness, associated with tag 3. -/
def c5post : PostRow :=
  { id := 100, contentTypeId := 1, authorId := 20, title := "t", slug := "p",
    excerpt := none, content := none, metadata := none, status := 1,
    publishedAt := none, viewCount := 0, createdAt := 0, updatedAt := 0 }

/-- Concrete state for the claim C5 witness. -/
def c5db : DB :=
  { users := [c5user], contentTypes := [c5ct], posts := [c5post], tags := [c5tag],
    postTags := [{ postId := 100, tagId := 3, createdAt := 0 }], media := [],
    postMedia := [], contacts := [], settings := [] }

/-- Witness for `C5_clear_tags_keeps_post` on `c5db`. -/
theorem C5_clear_tags_keeps_post_witness :
    (c5db.posts.find? (fun q => q.id == 100) = some c5post ∧
      c5db.contentTypes.find? (fun c => c.id == c5post.contentTypeId) = some c5ct ∧
      c5db.users.find? (fun x => x.id == c5post.authorId) = some c5user) ∧
    ((postUpdate c5db 7 100 clearTagsReq).1.posts = c5db.posts ∧
      (postUpdate c5db 7 100 clearTagsReq).1.postTags =
        c5db.postTags.filter (fun pt => pt.postId != 100) ∧
      (postUpdate c5db 7 100 clearTagsReq).1.contentTypes = c5db.contentTypes ∧
      (postUpdate c5db 7 100 clearTagsReq).1.media = c5db.media ∧
      (postUpdate c5db 7 100 clearTagsReq).1.postMedia = c5db.postMedia ∧
      (postUpdate c5db 7 100 clearTagsReq).2 =
        .ok { id := c5post.id, contentTypeId := c5post.contentTypeId,
              authorId := c5post.authorId, title := c5post.title, slug := c5post.slug,
              excerpt := c5post.excerpt, content := c5post.content,
              metadata := c5post.metadata, status := c5post.status,
              publishedAt := c5post.publishedAt, viewCount := c5post.viewCount,
              createdAt := c5post.createdAt, updatedAt := c5post.updatedAt,
              contentType := some c5ct, author := some c5user,
              tags := [], media := getPostMedia c5db c5post.id }) :=
  ⟨⟨by decide, by decide, by decide⟩,
    C5_clear_tags_keeps_post c5db 7 100 c5post (by decide) c5ct (by decide)
      c5user (by decide)⟩

/-! ## Claim C4 -/

/-- A successful post insert changes only the `posts` table. -/
lemma insertPostTx_ok (db : DB) (row : PostRow) (db1 : DB)
    (h : insertPostTx db row = .ok db1) :
    db1.tags = db.tags ∧ db1.postTags = db.postTags := by
  unfold insertPostTx at h
  split_ifs at h <;>
    first
      | exact Except.noConfusion h
      | (injection h with h2; subst h2; exact ⟨rfl, rfl⟩)

/-- A successful `post_tags` insert either skipped an existing pair or added
one pair whose tag exists. -/
lemma insertPostTagTx_ok (db : DB) (now : Nat) (pid tid : Id) (db2 : DB)
    (h : insertPostTagTx db now pid tid = .ok db2) :
    (db.postTags.any (fun pt => pt.postId == pid && pt.tagId == tid) = true ∧ db2 = db) ∨
    (db.tags.any (fun tr => tr.id == tid) = true ∧
      db2 = { db with postTags :=
        db.postTags ++ [{ postId := pid, tagId := tid, createdAt := now }] }) := by
  unfold insertPostTagTx at h
  split_ifs at h <;>
    first
      | exact Except.noConfusion h
      | (injection h with hx; subst hx;
         first
           | exact Or.inl ⟨by assumption, rfl⟩
           | exact Or.inr ⟨by assumption, rfl⟩)

/-- When some requested tag id is stored in neither the `tags` table nor the
post's existing association pairs, `attachTagsTx` fails (with the wrapped
storage error of `fmt.Errorf`). -/
lemma attachTagsTx_missing_tag (now : Nat) (pid : Id) :
    ∀ (l : List Id) (db : DB) (t : Id), t ∈ l →
      (∀ tr ∈ db.tags, tr.id ≠ t) →
      (∀ pt ∈ db.postTags, ¬ (pt.postId = pid ∧ pt.tagId = t)) →
      attachTagsTx now pid l db = .error .storage := by
  intro l
  induction l with
  | nil =>
    intro db t ht
    cases ht
  | cons t0 ts ih =>
    intro db t ht hmiss hpair
    cases hins : insertPostTagTx db now pid t0 with
    | error e =>
      unfold attachTagsTx
      rw [hins]
    | ok db2 =>
      have hred : attachTagsTx now pid (t0 :: ts) db = attachTagsTx now pid ts db2 := by
        simp only [attachTagsTx]
        rw [hins]
      rw [hred]
      rcases insertPostTagTx_ok db now pid t0 db2 hins with ⟨hex, heq⟩ | ⟨htag, heq⟩
      · have ht0 : t0 ≠ t := by
          rw [List.any_eq_true] at hex
          obtain ⟨pt, hpt, hc⟩ := hex
          simp only [Bool.and_eq_true, beq_iff_eq] at hc
          intro hEq
          exact hpair pt hpt ⟨hc.1, hEq ▸ hc.2⟩
        have ht' : t ∈ ts := by
          cases List.mem_cons.mp ht with
          | inl h => exact absurd h.symm ht0
          | inr h => exact h
        subst heq
        exact ih _ t ht' hmiss hpair
      · have ht0 : t0 ≠ t := by
          rw [List.any_eq_true] at htag
          obtain ⟨tr, htr, hc⟩ := htag
          simp only [beq_iff_eq] at hc
          intro hEq
          exact hmiss tr htr (by rw [hc, hEq])
        have ht' : t ∈ ts := by
          cases List.mem_cons.mp ht with
          | inl h => exact absurd h.symm ht0
          | inr h => exact h
        subst heq
        refine ih _ t ht' ?_ ?_
        · exact hmiss
        · intro pt hpt
          rcases List.mem_append.mp hpt with hmem | hmem
          · exact hpair pt hmem
          · have hEq : pt = { postId := pid, tagId := t0, createdAt := now } := by
              simpa using hmem
            subst hEq
            rintro ⟨-, h2⟩
            exact ht0 h2

/-- A successful post-row update leaves the `tags` table unchanged. -/
lemma updatePostRowTx_ok (db : DB) (now : Nat) (id : Id) (req : UpdatePostRequest)
    (db1 : DB) (h : updatePostRowTx db now id req = .ok db1) :
    db1.tags = db.tags := by
  unfold updatePostRowTx at h
  split_ifs at h with h1
  · cases hf : db.posts.find? (fun p => p.id == id) with
    | none =>
      rw [hf] at h
      exact Except.noConfusion h
    | some p =>
      rw [hf] at h
      simp only [] at h
      split_ifs at h <;>
        first
          | exact Except.noConfusion h
          | (injection h with h2; subst h2; rfl)
  · injection h with h2
    subst h2
    rfl

/-- Claim C4: in both post create and post update, when a provided tag id
cannot be associated (it is absent from the `tags` table, so its insert
raises a foreign-key violation), the whole operation fails and the committed
state is exactly the original one — the post row write is rolled back with
the tag writes. -/
theorem C4_post_tag_failure_rolls_back (db : DB) (newId now : Nat)
    (req : CreatePostRequest) (id : Id) (ureq : UpdatePostRequest) :
    ((∃ t ∈ req.tagIDs, (∀ tr ∈ db.tags, tr.id ≠ t) ∧
        (∀ pt ∈ db.postTags, ¬ (pt.postId = newId ∧ pt.tagId = t))) →
      (∃ e, (postCreate db newId now req).2 = .error e) ∧
        (postCreate db newId now req).1 = db) ∧
    ((∃ l, ureq.tagIDs = some l ∧ ∃ t ∈ l, ∀ tr ∈ db.tags, tr.id ≠ t) →
      (∃ e, (postUpdate db now id ureq).2 = .error e) ∧
        (postUpdate db now id ureq).1 = db) := by
  constructor
  · rintro ⟨t, ht, hmiss, hpair⟩
    have herr : ∃ e, postCreateTx newId now req db = .error e := by
      cases hins : insertPostTx db (buildPostRow newId now req) with
      | error e =>
        cases e
        · refine ⟨.duplicate, ?_⟩
          unfold postCreateTx
          rw [hins]
        · refine ⟨.foreignKey, ?_⟩
          unfold postCreateTx
          rw [hins]
      | ok db1 =>
        obtain ⟨htags1, hpt1⟩ := insertPostTx_ok db _ db1 hins
        have hlen : req.tagIDs.length > 0 :=
          List.length_pos.mpr (List.ne_nil_of_mem ht)
        have hatt : attachTagsTx now (buildPostRow newId now req).id req.tagIDs db1 =
            .error .storage := by
          refine attachTagsTx_missing_tag now _ req.tagIDs db1 t ht ?_ ?_
          · rw [htags1]
            exact hmiss
          · rw [hpt1]
            exact hpair
        refine ⟨.storage, ?_⟩
        unfold postCreateTx
        rw [hins]
        show (if req.tagIDs.length > 0 then
            match attachTagsTx now (buildPostRow newId now req).id req.tagIDs db1 with
            | .error e => .error e
            | .ok db2 => .ok (db2, rowToPost (buildPostRow newId now req))
          else .ok (db1, rowToPost (buildPostRow newId now req))) =
          Except.error RepoError.storage
        rw [if_pos hlen, hatt]
    obtain ⟨e, he⟩ := herr
    refine ⟨⟨e, ?_⟩, ?_⟩
    · unfold postCreate runTx
      rw [he]
    · unfold postCreate runTx
      rw [he]
  · rintro ⟨l, hl, t, ht, hmiss⟩
    have herr : ∃ e, postUpdateTx now id ureq db = .error e := by
      cases hrow : updatePostRowTx db now id ureq with
      | error e =>
        refine ⟨e, ?_⟩
        unfold postUpdateTx
        rw [hrow]
      | ok db1 =>
        have htags1 := updatePostRowTx_ok db now id ureq db1 hrow
        have hlen : l.length > 0 := List.length_pos.mpr (List.ne_nil_of_mem ht)
        have hatt : attachTagsTx now id l
            { db1 with postTags := db1.postTags.filter (fun pt => pt.postId != id) } =
            .error .storage := by
          refine attachTagsTx_missing_tag now id l _ t ht ?_ ?_
          · intro tr htr
            apply hmiss
            rw [← htags1]
            exact htr
          · intro pt hpt
            have hne := (List.mem_filter.mp hpt).2
            simp only [bne_iff_ne, ne_eq] at hne
            rintro ⟨h1, -⟩
            exact hne h1
        refine ⟨.storage, ?_⟩
        unfold postUpdateTx
        rw [hrow]
        show (match ureq.tagIDs with
          | none => Except.ok db1
          | some l =>
            if l.length > 0 then
              attachTagsTx now id l
                { db1 with postTags := db1.postTags.filter (fun pt => pt.postId != id) }
            else Except.ok
              { db1 with postTags := db1.postTags.filter (fun pt => pt.postId != id) }) =
          Except.error RepoError.storage
        rw [hl]
        show (if l.length > 0 then
            attachTagsTx now id l
              { db1 with postTags := db1.postTags.filter (fun pt => pt.postId != id) }
          else Except.ok
            { db1 with postTags := db1.postTags.filter (fun pt => pt.postId != id) }) =
          Except.error RepoError.storage
        rw [if_pos hlen, hatt]
    obtain ⟨e, he⟩ := herr
    refine ⟨⟨e, ?_⟩, ?_⟩
    · unfold postUpdate
      rw [he]
    · unfold postUpdate
      rw [he]

/-- Author row of the claim C4 witness. -/
def c4user : UserRow :=
  { id := 20, email := "e", fullName := "f", role := 1, isActive := true,
    lastLogin := none, createdAt := 0, updatedAt := 0 }

/-- Content type row of the claim C4 witness. -/
def c4ct : ContentTypeRow :=
  { id := 1, name := "n", slug := "s", schemaFields := none, isActive := true,
    displayOrder := 0, createdAt := 0, updatedAt := 0 }

/-- Stored post row of the claim C4 witness. -/
def c4post : PostRow :=
  { id := 100, contentTypeId := 1, authorId := 20, title := "t", slug := "p",
    excerpt := none, content := none, metadata := none, status := 1,
    publishedAt := none, viewCount := 0, createdAt := 0, updatedAt := 0 }

/-- Concrete state for the claim C4 witness: no tags stored at all, so tag
id 99 violates the foreign key. -/
def c4db : DB :=
  { users := [c4user], contentTypes := [c4ct], posts := [c4post], tags := [],
    postTags := [], media := [], postMedia := [], contacts := [], settings := [] }

/-- Create request of the claim C4 witness, carrying the missing tag 99. -/
def c4req : CreatePostRequest :=
  { contentTypeId := 1, authorId := 20, title := "T", slug := "q", excerpt := none,
    content := none, metadata := none, status := none, publishedAt := none,
    tagIDs := [99] }

/-- Update request of the claim C4 witness, carrying the missing tag 99. -/
def c4ureq : UpdatePostRequest :=
  { contentTypeId := none, title := none, slug := none, excerpt := none,
    content := none, metadata := none, status := none, publishedAt := none,
    tagIDs := some [99] }

/-- Witness for `C4_post_tag_failure_rolls_back` on `c4db`. -/
theorem C4_post_tag_failure_rolls_back_witness :
    ((∃ e, (postCreate c4db 10 5 c4req).2 = .error e) ∧
      (postCreate c4db 10 5 c4req).1 = c4db) ∧
    ((∃ e, (postUpdate c4db 5 100 c4ureq).2 = .error e) ∧
      (postUpdate c4db 5 100 c4ureq).1 = c4db) :=
  ⟨(C4_post_tag_failure_rolls_back c4db 10 5 c4req 100 c4ureq).1
      ⟨99, by decide, by decide, by decide⟩,
    (C4_post_tag_failure_rolls_back c4db 10 5 c4req 100 c4ureq).2
      ⟨[99], rfl, 99, by decide, by decide⟩⟩

/-! ## Claim C9 -/

/-- Go `models.CreateTagRequest`. -/
structure CreateTagRequest where
  name : String
  slug : String
  deriving Repr, DecidableEq

/-- Go `TagRepository.Create`: build the row with a fresh id, insert it
(unique violation on the id primary key or on `name`/`slug` is
`ErrDuplicate`), and return the built row with `created_at` from
`RETURNING`. -/
def tagCreate (db : DB) (newId now : Nat) (req : CreateTagRequest) :
    DB × Except RepoError TagRow :=
  if db.tags.any (fun u => u.id == newId || u.name == req.name || u.slug == req.slug) then
    (db, .error .duplicate)
  else
    ({ db with tags :=
        db.tags ++ [{ id := newId, name := req.name, slug := req.slug, createdAt := now }] },
      .ok { id := newId, name := req.name, slug := req.slug, createdAt := now })

/-- Go `models.CreateMediaRequest`. -/
structure CreateMediaRequest where
  fileName : String
  objectKey : String
  bucketName : String
  cdnUrl : Option String
  fileType : Int
  mimeType : String
  fileSize : Int
  dimensions : Option String
  variants : Option String
  altText : Option String
  checksum : Option String
  deriving Repr, DecidableEq

/-- The media row `MediaRepository.Create` builds and stores. -/
def buildMediaRow (newId now : Nat) (req : CreateMediaRequest) : MediaRow :=
  { id := newId, fileName := req.fileName, objectKey := req.objectKey,
    bucketName := req.bucketName, cdnUrl := req.cdnUrl, fileType := req.fileType,
    mimeType := req.mimeType, fileSize := req.fileSize, dimensions := req.dimensions,
    variants := req.variants, altText := req.altText, checksum := req.checksum,
    createdAt := now }

/-- Go `MediaRepository.Create`: unique violation on the id primary key or on
`object_key` is `ErrDuplicate`; the built row is returned with `created_at`
from `RETURNING`. -/
def mediaCreate (db : DB) (newId now : Nat) (req : CreateMediaRequest) :
    DB × Except RepoError MediaRow :=
  if db.media.any (fun u => u.id == newId || u.objectKey == req.objectKey) then
    (db, .error .duplicate)
  else
    ({ db with media := db.media ++ [buildMediaRow newId now req] },
      .ok (buildMediaRow newId now req))

/-- Go `SettingRepository.Create`: unique violation on the id primary key or
on `key` is `ErrDuplicate`; the built row is returned with `updated_at` from
`RETURNING`. -/
def settingCreate (db : DB) (newId now : Nat) (req : CreateSettingRequest) :
    DB × Except RepoError SettingRow :=
  if db.settings.any (fun u => u.id == newId || u.key == req.key) then
    (db, .error .duplicate)
  else
    ({ db with settings := db.settings ++
        [{ id := newId, key := req.key, value := req.value,
           description := req.description, updatedAt := now }] },
      .ok { id := newId, key := req.key, value := req.value,
            description := req.description, updatedAt := now })

/-- Go `models.CreateContentTypeRequest`. -/
structure CreateContentTypeRequest where
  name : String
  slug : String
  schemaFields : Option String
  isActive : Option Bool
  displayOrder : Option Int
  deriving Repr, DecidableEq

/-- The content type row `ContentTypeRepository.Create` builds and stores:
`is_active` defaults to true, `display_order` to 0. -/
def buildContentTypeRow (newId now : Nat) (req : CreateContentTypeRequest) : ContentTypeRow :=
  { id := newId, name := req.name, slug := req.slug, schemaFields := req.schemaFields,
    isActive := req.isActive.getD true, displayOrder := req.displayOrder.getD 0,
    createdAt := now, updatedAt := now }

/-- Go `ContentTypeRepository.Create`: unique violation on the id primary key
or on `name`/`slug` is `ErrDuplicate`; the built row is returned with the
timestamps from `RETURNING`. -/
def contentTypeCreate (db : DB) (newId now : Nat) (req : CreateContentTypeRequest) :
    DB × Except RepoError ContentTypeRow :=
  if db.contentTypes.any (fun u => u.id == newId || u.name == req.name || u.slug == req.slug) then
    (db, .error .duplicate)
  else
    ({ db with contentTypes := db.contentTypes ++ [buildContentTypeRow newId now req] },
      .ok (buildContentTypeRow newId now req))

/-- Go `models.CreateContactRequest`; `ipAddress` carries the value the
repository stores (the `net.ParseIP` normalization is abstracted — the same
value is both stored and returned). -/
structure CreateContactRequest where
  name : String
  email : String
  phone : Option String
  subject : Option String
  message : String
  ipAddress : Option String
  userAgent : Option String
  metadata : Option String
  deriving Repr, DecidableEq

/-- The contact row `ContactRepository.Create` builds and stores: status
"new", no read timestamp. -/
def buildContactRow (newId now : Nat) (req : CreateContactRequest) : ContactRow :=
  { id := newId, name := req.name, email := req.email, phone := req.phone,
    subject := req.subject, message := req.message, status := contactStatusNew,
    ipAddress := req.ipAddress, userAgent := req.userAgent, metadata := req.metadata,
    readAt := none, createdAt := now }

/-- Go `ContactRepository.Create`: no error is remapped (any failure — here
only an id primary-key collision — stays a wrapped storage error); the built
row is returned with `created_at` from `RETURNING`. -/
def contactCreate (db : DB) (newId now : Nat) (req : CreateContactRequest) :
    DB × Except RepoError ContactRow :=
  if db.contacts.any (fun u => u.id == newId) then
    (db, .error .storage)
  else
    ({ db with contacts := db.contacts ++ [buildContactRow newId now req] },
      .ok (buildContactRow newId now req))

/-- Replacing the matched element of a list in place: the first `p`-match of
the mapped list is the replacement, provided the replacement still matches. -/
lemma find?_map_update {α : Type} (p : α → Bool) (r : α) (hr : p r = true) :
    ∀ (l : List α) (t : α), l.find? p = some t →
      (l.map (fun u => if p u then r else u)).find? p = some r := by
  intro l
  induction l with
  | nil =>
    intro t ht
    exact Option.noConfusion ht
  | cons a as ih =>
    intro t ht
    by_cases hpa : p a = true
    · simp only [List.map_cons, if_pos hpa]
      rw [List.find?_cons_of_pos _ hr]
    · rw [List.find?_cons_of_neg _ hpa] at ht
      simp only [List.map_cons, if_neg hpa]
      rw [List.find?_cons_of_neg _ hpa]
      exact ih t ht

/-- Appending a fresh row: when no stored row matches `p`, the first
`p`-match after the append is the new row. -/
lemma find?_append_singleton {α : Type} (p : α → Bool) (r : α) (hr : p r = true) :
    ∀ (l : List α), l.find? p = none → (l ++ [r]).find? p = some r := by
  intro l
  induction l with
  | nil =>
    intro _
    simp only [List.nil_append]
    rw [List.find?_cons_of_pos _ hr]
  | cons a as ih =>
    intro hnone
    by_cases hpa : p a = true
    · rw [List.find?_cons_of_pos _ hpa] at hnone
      exact Option.noConfusion hnone
    · rw [List.find?_cons_of_neg _ hpa] at hnone
      rw [List.cons_append, List.find?_cons_of_neg _ hpa]
      exact ih hnone

/-- A successful tag update responds with exactly the row stored under that
id in the committed state. -/
lemma tagUpdate_returns_stored (db : DB) (id : Id) (req : UpdateTagRequest)
    (db2 : DB) (r : TagRow) (h : tagUpdate db id req = (db2, .ok r)) :
    tagGetByID db2 id = .ok r := by
  unfold tagUpdate at h
  split_ifs at h with hempty
  · injection h with h1 h2
    subst h1
    exact h2
  · cases hf : db.tags.find? (fun t => t.id == id) with
    | none =>
      rw [hf] at h
      injection h with h1 h2
      exact Except.noConfusion h2
    | some t =>
      rw [hf] at h
      simp only [] at h
      split_ifs at h with hdup
      · injection h with h1 h2
        exact Except.noConfusion h2
      · injection h with h1 h2
        injection h2 with h3
        subst h3
        subst h1
        have hpred := List.find?_some hf
        have hfind := find?_map_update (fun u => u.id == id)
          ({ t with name := req.name.getD t.name, slug := req.slug.getD t.slug } : TagRow)
          hpred db.tags t hf
        unfold tagGetByID
        simp only [hfind]

/-- A successful media update responds with exactly the row stored under
that id in the committed state. -/
lemma mediaUpdate_returns_stored (db : DB) (id : Id) (req : UpdateMediaRequest)
    (db2 : DB) (r : MediaRow) (h : mediaUpdate db id req = (db2, .ok r)) :
    mediaGetByID db2 id = .ok r := by
  unfold mediaUpdate at h
  split_ifs at h with hempty
  · injection h with h1 h2
    subst h1
    exact h2
  · cases hf : db.media.find? (fun m => m.id == id) with
    | none =>
      rw [hf] at h
      injection h with h1 h2
      exact Except.noConfusion h2
    | some m =>
      rw [hf] at h
      simp only [] at h
      injection h with h1 h2
      injection h2 with h3
      subst h3
      subst h1
      have hpred := List.find?_some hf
      have hfind := find?_map_update (fun x => x.id == id)
        ({ m with
            fileName := req.fileName.getD m.fileName
            cdnUrl := (match req.cdnUrl with | some v => some v | none => m.cdnUrl)
            dimensions := (match req.dimensions with | some v => some v | none => m.dimensions)
            variants := (match req.variants with | some v => some v | none => m.variants)
            altText := (match req.altText with | some v => some v | none => m.altText) } : MediaRow)
        hpred db.media m hf
      unfold mediaGetByID
      simp only [hfind]

/-- A successful setting update responds with exactly the row stored under
that key in the committed state. -/
lemma settingUpdate_returns_stored (db : DB) (now : Nat) (key : String)
    (req : UpdateSettingRequest) (db2 : DB) (r : SettingRow)
    (h : settingUpdate db now key req = (db2, .ok r)) :
    settingGetByKey db2 key = .ok r := by
  unfold settingUpdate at h
  split_ifs at h with hempty
  · injection h with h1 h2
    subst h1
    exact h2
  · cases hf : db.settings.find? (fun s => s.key == key) with
    | none =>
      rw [hf] at h
      injection h with h1 h2
      exact Except.noConfusion h2
    | some s =>
      rw [hf] at h
      simp only [] at h
      injection h with h1 h2
      injection h2 with h3
      subst h3
      subst h1
      have hpred := List.find?_some hf
      have hfind := find?_map_update (fun x => x.key == key)
        ({ s with
            value := (match req.value with | some v => some v | none => s.value)
            description := (match req.description with | some d => some d | none => s.description)
            updatedAt := now } : SettingRow)
        hpred db.settings s hf
      unfold settingGetByKey
      simp only [hfind]

/-- A successful content type update responds with exactly the row stored
under that id in the committed state. -/
lemma contentTypeUpdate_returns_stored (db : DB) (now : Nat) (id : Id)
    (req : UpdateContentTypeRequest) (db2 : DB) (r : ContentTypeRow)
    (h : contentTypeUpdate db now id req = (db2, .ok r)) :
    contentTypeGetByID db2 id = .ok r := by
  unfold contentTypeUpdate at h
  split_ifs at h with hempty
  · injection h with h1 h2
    subst h1
    exact h2
  · cases hf : db.contentTypes.find? (fun ct => ct.id == id) with
    | none =>
      rw [hf] at h
      injection h with h1 h2
      exact Except.noConfusion h2
    | some ct =>
      rw [hf] at h
      simp only [] at h
      split_ifs at h with hdup
      · injection h with h1 h2
        exact Except.noConfusion h2
      · injection h with h1 h2
        injection h2 with h3
        subst h3
        subst h1
        have hpred := List.find?_some hf
        have hfind := find?_map_update (fun u => u.id == id)
          ({ ct with
              name := req.name.getD ct.name
              slug := req.slug.getD ct.slug
              schemaFields := (match req.schemaFields with | some v => some v | none => ct.schemaFields)
              isActive := req.isActive.getD ct.isActive
              displayOrder := req.displayOrder.getD ct.displayOrder
              updatedAt := now } : ContentTypeRow)
          hpred db.contentTypes ct hf
        unfold contentTypeGetByID
        simp only [hfind]

/-- A successful contact update responds with exactly the row stored under
that id in the committed state. -/
lemma contactUpdate_returns_stored (db : DB) (now : Nat) (id : Id)
    (req : UpdateContactRequest) (db2 : DB) (r : ContactRow)
    (h : contactUpdate db now id req = (db2, .ok r)) :
    contactGetByID db2 id = .ok r := by
  unfold contactUpdate at h
  cases hs : req.status with
  | none =>
    rw [hs] at h
    injection h with h1 h2
    subst h1
    exact h2
  | some s =>
    rw [hs] at h
    cases hf : db.contacts.find? (fun c => c.id == id) with
    | none =>
      rw [hf] at h
      injection h with h1 h2
      exact Except.noConfusion h2
    | some c =>
      rw [hf] at h
      simp only [] at h
      injection h with h1 h2
      injection h2 with h3
      subst h3
      subst h1
      have hpred := List.find?_some hf
      have hfind := find?_map_update (fun x => x.id == id)
        ({ c with
            status := s
            readAt := if s == contactStatusRead then some now else c.readAt } : ContactRow)
        hpred db.contacts c hf
      unfold contactGetByID
      simp only [hfind]

/-- A successful tag create responds with exactly the row stored under the
fresh id. -/
lemma tagCreate_returns_stored (db : DB) (newId now : Nat) (req : CreateTagRequest)
    (db2 : DB) (r : TagRow) (h : tagCreate db newId now req = (db2, .ok r)) :
    tagGetByID db2 r.id = .ok r := by
  unfold tagCreate at h
  split_ifs at h with hdup
  · injection h with h1 h2
    exact Except.noConfusion h2
  · injection h with h1 h2
    injection h2 with h3
    subst h3
    subst h1
    have hnone : db.tags.find? (fun t => t.id == newId) = none := by
      rw [List.find?_eq_none]
      intro x hx hpx
      have hall := hdup
      simp at hall
      simp only [beq_iff_eq] at hpx
      exact (hall x hx).1.1 hpx
    have happ := find?_append_singleton (fun t => t.id == newId)
      ({ id := newId, name := req.name, slug := req.slug, createdAt := now } : TagRow)
      (by simp) db.tags hnone
    unfold tagGetByID
    simp only [happ]

/-- A successful media create responds with exactly the row stored under the
fresh id. -/
lemma mediaCreate_returns_stored (db : DB) (newId now : Nat) (req : CreateMediaRequest)
    (db2 : DB) (r : MediaRow) (h : mediaCreate db newId now req = (db2, .ok r)) :
    mediaGetByID db2 r.id = .ok r := by
  unfold mediaCreate at h
  split_ifs at h with hdup
  · injection h with h1 h2
    exact Except.noConfusion h2
  · injection h with h1 h2
    injection h2 with h3
    subst h3
    subst h1
    have hnone : db.media.find? (fun m => m.id == newId) = none := by
      rw [List.find?_eq_none]
      intro x hx hpx
      have hall := hdup
      simp at hall
      simp only [beq_iff_eq] at hpx
      exact (hall x hx).1 hpx
    have happ := find?_append_singleton (fun m => m.id == newId)
      (buildMediaRow newId now req) (by simp [buildMediaRow]) db.media hnone
    unfold mediaGetByID
    simp only [buildMediaRow] at happ ⊢
    simp only [happ]

/-- A successful setting create responds with exactly the row stored under
its key. -/
lemma settingCreate_returns_stored (db : DB) (newId now : Nat)
    (req : CreateSettingRequest) (db2 : DB) (r : SettingRow)
    (h : settingCreate db newId now req = (db2, .ok r)) :
    settingGetByKey db2 r.key = .ok r := by
  unfold settingCreate at h
  split_ifs at h with hdup
  · injection h with h1 h2
    exact Except.noConfusion h2
  · injection h with h1 h2
    injection h2 with h3
    subst h3
    subst h1
    have hnone : db.settings.find? (fun s => s.key == req.key) = none := by
      rw [List.find?_eq_none]
      intro x hx hpx
      have hall := hdup
      simp at hall
      simp only [beq_iff_eq] at hpx
      exact (hall x hx).2 hpx
    have happ := find?_append_singleton (fun s => s.key == req.key)
      ({ id := newId, key := req.key, value := req.value,
         description := req.description, updatedAt := now } : SettingRow)
      (by simp) db.settings hnone
    unfold settingGetByKey
    simp only [happ]

/-- A successful content type create responds with exactly the row stored
under the fresh id. -/
lemma contentTypeCreate_returns_stored (db : DB) (newId now : Nat)
    (req : CreateContentTypeRequest) (db2 : DB) (r : ContentTypeRow)
    (h : contentTypeCreate db newId now req = (db2, .ok r)) :
    contentTypeGetByID db2 r.id = .ok r := by
  unfold contentTypeCreate at h
  split_ifs at h with hdup
  · injection h with h1 h2
    exact Except.noConfusion h2
  · injection h with h1 h2
    injection h2 with h3
    subst h3
    subst h1
    have hnone : db.contentTypes.find? (fun ct => ct.id == newId) = none := by
      rw [List.find?_eq_none]
      intro x hx hpx
      have hall := hdup
      simp at hall
      simp only [beq_iff_eq] at hpx
      exact (hall x hx).1.1 hpx
    have happ := find?_append_singleton (fun ct => ct.id == newId)
      (buildContentTypeRow newId now req) (by simp [buildContentTypeRow])
      db.contentTypes hnone
    unfold contentTypeGetByID
    simp only [buildContentTypeRow] at happ ⊢
    simp only [happ]

/-- A successful contact create responds with exactly the row stored under
the fresh id. -/
lemma contactCreate_returns_stored (db : DB) (newId now : Nat)
    (req : CreateContactRequest) (db2 : DB) (r : ContactRow)
    (h : contactCreate db newId now req = (db2, .ok r)) :
    contactGetByID db2 r.id = .ok r := by
  unfold contactCreate at h
  split_ifs at h with hdup
  · injection h with h1 h2
    exact Except.noConfusion h2
  · injection h with h1 h2
    injection h2 with h3
    subst h3
    subst h1
    have hnone : db.contacts.find? (fun c => c.id == newId) = none := by
      rw [List.find?_eq_none]
      intro x hx hpx
      have hall := hdup
      simp at hall
      simp only [beq_iff_eq] at hpx
      exact hall x hx hpx
    have happ := find?_append_singleton (fun c => c.id == newId)
      (buildContactRow newId now req) (by simp [buildContactRow]) db.contacts hnone
    unfold contactGetByID
    simp only [buildContactRow] at happ ⊢
    simp only [happ]

/-- Whatever `Create`'s transaction does, the value it hands back is always
the pre-insert construction of the request — no reload. -/
lemma postCreateTx_ok_shape (newId now : Nat) (req : CreatePostRequest) (db : DB)
    (pr : DB × ContentPost) (h : postCreateTx newId now req db = .ok pr) :
    pr.2 = rowToPost (buildPostRow newId now req) := by
  unfold postCreateTx at h
  cases hins : insertPostTx db (buildPostRow newId now req) with
  | error e =>
    rw [hins] at h
    cases e <;> exact Except.noConfusion h
  | ok db1 =>
    rw [hins] at h
    simp only [] at h
    split_ifs at h with hlen
    · cases hatt : attachTagsTx now (buildPostRow newId now req).id req.tagIDs db1 with
      | error e =>
        rw [hatt] at h
        exact Except.noConfusion h
      | ok db2 =>
        rw [hatt] at h
        injection h with h2
        rw [← h2]
    · injection h with h2
      rw [← h2]

/-- Claim C9 (amended): every mutating repository operation that succeeds
returns the entity as stored — reading it back from the committed state
yields exactly the returned value: post update reloads the full aggregate via
`GetByID`, and the other entities' creates and updates return the stored row
(`RETURNING` / built-row scan-back) — with the single exception of post
create, which responds with the request echoed back plus generated fields,
its relations (content type, author, tags, media) not loaded even when tag
ids were attached. -/
theorem C9_mutation_response_shape (db : DB) (newId now : Nat)
    (req : CreatePostRequest) (id : Id) (key : String) (ureq : UpdatePostRequest) :
    (∀ post, (postUpdate db now id ureq).2 = .ok post →
      postGetByID (postUpdate db now id ureq).1 id = .ok post) ∧
    (∀ post, (postCreate db newId now req).2 = .ok post →
      post = rowToPost (buildPostRow newId now req) ∧
      post.tags = [] ∧ post.media = [] ∧ post.contentType = none ∧
      post.author = none ∧ post.title = req.title ∧ post.slug = req.slug ∧
      post.id = newId) ∧
    (∀ (uq : UpdateTagRequest) (db2 : DB) (t : TagRow),
      tagUpdate db id uq = (db2, .ok t) → tagGetByID db2 id = .ok t) ∧
    (∀ (uq : UpdateMediaRequest) (db2 : DB) (m : MediaRow),
      mediaUpdate db id uq = (db2, .ok m) → mediaGetByID db2 id = .ok m) ∧
    (∀ (uq : UpdateSettingRequest) (db2 : DB) (s : SettingRow),
      settingUpdate db now key uq = (db2, .ok s) → settingGetByKey db2 key = .ok s) ∧
    (∀ (uq : UpdateContentTypeRequest) (db2 : DB) (ct : ContentTypeRow),
      contentTypeUpdate db now id uq = (db2, .ok ct) → contentTypeGetByID db2 id = .ok ct) ∧
    (∀ (uq : UpdateContactRequest) (db2 : DB) (c : ContactRow),
      contactUpdate db now id uq = (db2, .ok c) → contactGetByID db2 id = .ok c) ∧
    (∀ (cq : CreateTagRequest) (db2 : DB) (t : TagRow),
      tagCreate db newId now cq = (db2, .ok t) → tagGetByID db2 t.id = .ok t) ∧
    (∀ (cq : CreateMediaRequest) (db2 : DB) (m : MediaRow),
      mediaCreate db newId now cq = (db2, .ok m) → mediaGetByID db2 m.id = .ok m) ∧
    (∀ (cq : CreateSettingRequest) (db2 : DB) (s : SettingRow),
      settingCreate db newId now cq = (db2, .ok s) → settingGetByKey db2 s.key = .ok s) ∧
    (∀ (cq : CreateContentTypeRequest) (db2 : DB) (ct : ContentTypeRow),
      contentTypeCreate db newId now cq = (db2, .ok ct) → contentTypeGetByID db2 ct.id = .ok ct) ∧
    (∀ (cq : CreateContactRequest) (db2 : DB) (c : ContactRow),
      contactCreate db newId now cq = (db2, .ok c) → contactGetByID db2 c.id = .ok c) := by
  refine ⟨?_, ?_,
    fun uq db2 t h => tagUpdate_returns_stored db id uq db2 t h,
    fun uq db2 m h => mediaUpdate_returns_stored db id uq db2 m h,
    fun uq db2 s h => settingUpdate_returns_stored db now key uq db2 s h,
    fun uq db2 ct h => contentTypeUpdate_returns_stored db now id uq db2 ct h,
    fun uq db2 c h => contactUpdate_returns_stored db now id uq db2 c h,
    fun cq db2 t h => tagCreate_returns_stored db newId now cq db2 t h,
    fun cq db2 m h => mediaCreate_returns_stored db newId now cq db2 m h,
    fun cq db2 s h => settingCreate_returns_stored db newId now cq db2 s h,
    fun cq db2 ct h => contentTypeCreate_returns_stored db newId now cq db2 ct h,
    fun cq db2 c h => contactCreate_returns_stored db newId now cq db2 c h⟩
  · intro post h
    unfold postUpdate at h ⊢
    cases hup : postUpdateTx now id ureq db with
    | error e =>
      rw [hup] at h
      exact Except.noConfusion h
    | ok db2 =>
      rw [hup] at h
      exact h
  · intro post h
    unfold postCreate runTx at h
    cases hc : postCreateTx newId now req db with
    | error e =>
      rw [hc] at h
      exact Except.noConfusion h
    | ok pr =>
      rw [hc] at h
      have hshape := postCreateTx_ok_shape newId now req db pr hc
      have hpost : post = rowToPost (buildPostRow newId now req) := by
        injection h with h2
        rw [← h2, hshape]
      subst hpost
      exact ⟨rfl, rfl, rfl, rfl, rfl, rfl, rfl, rfl⟩

/-- Author row of the claim C9 counterexample and witness. -/
def c9user : UserRow :=
  { id := 2, email := "e", fullName := "f", role := 1, isActive := true,
    lastLogin := none, createdAt := 0, updatedAt := 0 }

/-- Content type row of the claim C9 counterexample and witness. -/
def c9ct : ContentTypeRow :=
  { id := 1, name := "n", slug := "s", schemaFields := none, isActive := true,
    displayOrder := 0, createdAt := 0, updatedAt := 0 }

/-- Tag row of the claim C9 counterexample and witness. -/
def c9tag : TagRow := { id := 3, name := "t", slug := "ts", createdAt := 0 }

/-- Concrete state for the claim C9 counterexample and witness. -/
def c9db : DB :=
  { users := [c9user], contentTypes := [c9ct], posts := [], tags := [c9tag],
    postTags := [], media := [], postMedia := [], contacts := [], settings := [] }

/-- Create request of claim C9, attaching tag 3. -/
def c9req : CreatePostRequest :=
  { contentTypeId := 1, authorId := 2, title := "T", slug := "sl", excerpt := none,
    content := none, metadata := none, status := none, publishedAt := none,
    tagIDs := [3] }

/-- Claim C9, counterexample: creating a post with tag 3 attached succeeds,
yet the response value has an empty tag list and no loaded relations, while
reloading the same post from the committed state returns it with tag 3 and
its relations — so the create response is not the freshly-loaded entity. -/
theorem C9_counterexample_create_not_reloaded :
    ((postCreate c9db 10 5 c9req).2.toOption.map (fun p => p.tags) = some []) ∧
    ((postCreate c9db 10 5 c9req).2.toOption.map (fun p => p.contentType) = some none) ∧
    ((postGetByID (postCreate c9db 10 5 c9req).1 10).toOption.map (fun p => p.tags) =
      some [c9tag]) ∧
    ((postGetByID (postCreate c9db 10 5 c9req).1 10).toOption.map (fun p => p.contentType) =
      some (some c9ct)) ∧
    (postCreate c9db 10 5 c9req).2 ≠ postGetByID (postCreate c9db 10 5 c9req).1 10 := by
  decide

/-- Witness for `C9_mutation_response_shape` on `c9db`: the post-create echo
half at `c9req` (with the concrete echoed value), and the tag-create
stored-row half at a concrete fresh tag. -/
theorem C9_mutation_response_shape_witness :
    (∀ post, (postCreate c9db 10 5 c9req).2 = .ok post →
      post = rowToPost (buildPostRow 10 5 c9req) ∧
      post.tags = [] ∧ post.media = [] ∧ post.contentType = none ∧
      post.author = none ∧ post.title = c9req.title ∧ post.slug = c9req.slug ∧
      post.id = 10) ∧
    ((postCreate c9db 10 5 c9req).2 = .ok (rowToPost (buildPostRow 10 5 c9req))) ∧
    (tagGetByID (tagCreate c9db 10 5 { name := "nt", slug := "nts" }).1 10 =
      .ok { id := 10, name := "nt", slug := "nts", createdAt := 5 }) :=
  ⟨(C9_mutation_response_shape c9db 10 5 c9req 10 "k"
      { contentTypeId := none, title := none, slug := none, excerpt := none,
        content := none, metadata := none, status := none, publishedAt := none,
        tagIDs := none }).2.1,
    by decide,
    (C9_mutation_response_shape c9db 10 5 c9req 10 "k"
      { contentTypeId := none, title := none, slug := none, excerpt := none,
        content := none, metadata := none, status := none, publishedAt := none,
        tagIDs := none }).2.2.2.2.2.2.2.1
      { name := "nt", slug := "nts" }
      (tagCreate c9db 10 5 { name := "nt", slug := "nts" }).1
      { id := 10, name := "nt", slug := "nts", createdAt := 5 }
      (by decide)⟩

end CMS
